import Mathlib

/-!
# Verification of the CRSF serial receiver (`src/main/rx/crsf.c`)

A shallow embedding of the CRSF frame assembler, checksum engine, frame
dispatcher, channel unpacker, link-statistics handler and link-rate
adaptation logic of `src/main/rx/crsf.c`, together with theorems settling
the specification claims about it.

Machine integers are modelled as `Nat` with explicit `% 2^w` truncation at
the points where the C code performs unsigned wrap-around.  The mutable
globals and function-local statics of the C file are gathered into an
explicit state record `CrsfState`; the receive ISR `crsfDataReceive`
becomes a state-transition function which additionally produces a
`StepLog` recording the externally observable effects of processing one
byte (which buffer index was written, whether a frame completed, whether
the frame-type switch ran, which collaborators were invoked).

The build is configured as the spec describes it: `USE_CRSF_V3`,
`USE_TELEMETRY_CRSF` and `USE_CRSF_LINK_STATISTICS` active (version-3
logic, subset channel format, command frames and link statistics are all
in scope); the MSP-over-telemetry and CMS display-port collaborators are
external and their frame types fall through to the `default` case here.
-/

namespace CrsfVerify

/-- Truncation to an unsigned 8-bit value (C `uint8_t` conversion). -/
def u8 (n : Nat) : Nat := n % 256

/-- Truncation to an unsigned 32-bit value (C `uint32_t` conversion). -/
def u32 (n : Nat) : Nat := n % 4294967296

/-- `CRSF_TIME_NEEDED_PER_FRAME_US` from `src/main/rx/crsf.c`. -/
def CRSF_TIME_NEEDED_PER_FRAME_US : Nat := 1100

/-- `CRSF_FRAME_ERROR_COUNT_THRESHOLD` from `src/main/rx/crsf.c`. -/
def CRSF_FRAME_ERROR_COUNT_THRESHOLD : Nat := 100

/-- Modelled from the spec: `CRSF_FRAME_SIZE_MAX` comes from `rx/crsf.h`,
which is not under `src/`; the spec fixes the frame-buffer capacity at 64
bytes ("Max frame size is 64 bytes", also stated in the source comment). -/
def CRSF_FRAME_SIZE_MAX : Nat := 64

/-- Modelled from the spec: `CRSF_FRAME_LENGTH_ADDRESS` from `rx/crsf.h`
(not under `src/`); the address field is one byte, total on-wire size is
`length + 2`. -/
def CRSF_FRAME_LENGTH_ADDRESS : Nat := 1

/-- Modelled from the spec: `CRSF_FRAME_LENGTH_FRAMELENGTH` from
`rx/crsf.h` (not under `src/`); the length field is one byte. -/
def CRSF_FRAME_LENGTH_FRAMELENGTH : Nat := 1

/-- Modelled from the spec: `CRSF_FRAME_LENGTH_TYPE_CRC` from `rx/crsf.h`
(not under `src/`); the length field counts the type byte and the CRC
byte, so type+CRC contribute 2. -/
def CRSF_FRAME_LENGTH_TYPE_CRC : Nat := 2

/-- Modelled from the spec: `CRSF_MAX_CHANNEL` from `rx/crsf.h` (not under
`src/`); the decoded channel set has sixteen entries. -/
def CRSF_MAX_CHANNEL : Nat := 16

/-- Modelled from the spec: `CRSF_ADDRESS_FLIGHT_CONTROLLER` from
`rx/crsf.h` (not under `src/`); the CRSF flight-controller device address
(0xC8). -/
def CRSF_ADDRESS_FLIGHT_CONTROLLER : Nat := 0xC8

/-- `0x16`, the ordinary packed RC frame type (value given in the source
comment "use ordinary RC frame structure (0x16)"). -/
def CRSF_FRAMETYPE_RC_CHANNELS_PACKED : Nat := 0x16

/-- `0x17`, the subset packed RC frame type (value given in the source
comment "use subset RC frame structure (0x17)"). -/
def CRSF_FRAMETYPE_SUBSET_RC_CHANNELS_PACKED : Nat := 0x17

/-- `0x14`, link statistics (value given in the source comment
"0x14 Link statistics"). -/
def CRSF_FRAMETYPE_LINK_STATISTICS : Nat := 0x14

/-- Modelled from the spec: `CRSF_FRAMETYPE_COMMAND` from the CRSF
protocol headers (not under `src/`); the version-3 command frame type. -/
def CRSF_FRAMETYPE_COMMAND : Nat := 0x32

/-- Modelled from the spec: `CRSF_FRAME_ORIGIN_DEST_SIZE` from `rx/crsf.h`
(not under `src/`); extended frames carry a destination byte and an origin
byte before the inner payload. -/
def CRSF_FRAME_ORIGIN_DEST_SIZE : Nat := 2

/-- Modelled from the spec: `CRSF_FRAME_LINK_STATISTICS_PAYLOAD_SIZE` from
`rx/crsf.h` (not under `src/`); the standard link-statistics payload is
the ten bytes listed in the source comment for frame type 0x14. -/
def CRSF_FRAME_LINK_STATISTICS_PAYLOAD_SIZE : Nat := 10

/-- `CRSF_SUBSET_RC_CHANNELS_PACKED_RESOLUTION` from `src/main/rx/crsf.c`. -/
def CRSF_SUBSET_RC_CHANNELS_PACKED_RESOLUTION : Nat := 11

/-- `CRSF_SUBSET_RC_CHANNELS_PACKED_MASK` from `src/main/rx/crsf.c`. -/
def CRSF_SUBSET_RC_CHANNELS_PACKED_MASK : Nat := 0x07FF

/-- `CRSF_SUBSET_RC_CHANNELS_PACKED_STARTING_CHANNEL_RESOLUTION` from
`src/main/rx/crsf.c`. -/
def CRSF_SUBSET_RC_CHANNELS_PACKED_STARTING_CHANNEL_RESOLUTION : Nat := 5

/-- `CRSF_SUBSET_RC_CHANNELS_PACKED_STARTING_CHANNEL_MASK` from
`src/main/rx/crsf.c`. -/
def CRSF_SUBSET_RC_CHANNELS_PACKED_STARTING_CHANNEL_MASK : Nat := 0x1F

/-- Modelled from the spec: `crc8_dvb_s2` lives in `common/crc.c`, which is
not under `src/`.  The spec fixes it as "CRC-8 (DVB-S2 polynomial) over
type+payload": the standard byte-wise CRC-8 with polynomial 0xD5 — xor the
byte into the accumulator, then eight MSB-first shift steps. -/
def crc8_dvb_s2 (crc a : Nat) : Nat :=
  (List.range 8).foldl
    (fun c _ => if 128 ≤ c then u8 ((c * 2) ^^^ 0xD5) else u8 (c * 2))
    (u8 (crc ^^^ a))

/-- Modelled from the spec: `crc8_poly_0xba` lives in `common/crc.c`, which
is not under `src/`.  The spec fixes it as a second CRC-8 "with a distinct
polynomial" used for the nested command CRC; the polynomial is 0xBA, with
the same byte-wise MSB-first structure as `crc8_dvb_s2`. -/
def crc8_poly_0xba (crc a : Nat) : Nat :=
  (List.range 8).foldl
    (fun c _ => if 128 ≤ c then u8 ((c * 2) ^^^ 0xBA) else u8 (c * 2))
    (u8 (crc ^^^ a))

/-- The frame buffer of the C union `crsfFrame_t`, viewed through its
`bytes` member as in `crsfDataReceive`: byte 0 is `frame.deviceAddress`,
byte 1 is `frame.frameLength`, byte 2 is `frame.type`, byte `3+i` is
`frame.payload[i]`.  It is modelled as a total function `Nat → Nat` so
that writes past the 64-byte capacity remain observable. -/
abbrev FrameBytes := Nat → Nat

/-- `crsfFrameCRC` from `src/main/rx/crsf.c`: CRC-8/DVB-S2 seeded with the
type byte, then folded over `frame.payload[0 .. frameLength - 3]` — i.e.
over every stored frame byte from `type` up to but excluding the final
trailing CRC byte. -/
def crsfFrameCRC (bytes : FrameBytes) : Nat :=
  (List.range (bytes 1 - CRSF_FRAME_LENGTH_TYPE_CRC)).foldl
    (fun crc ii => crc8_dvb_s2 crc (bytes (3 + ii)))
    (crc8_dvb_s2 0 (bytes 2))

/-- `crsfFrameCmdCRC` from `src/main/rx/crsf.c`: CRC-8 with polynomial
0xBA seeded with the type byte, then folded over
`frame.payload[0 .. frameLength - 4]` — excluding the last two trailing
bytes (the embedded command CRC and the outer frame CRC). -/
def crsfFrameCmdCRC (bytes : FrameBytes) : Nat :=
  (List.range (bytes 1 - CRSF_FRAME_LENGTH_TYPE_CRC - 1)).foldl
    (fun crc ii => crc8_poly_0xba crc (bytes (3 + ii)))
    (crc8_poly_0xba 0 (bytes 2))

/-- The mutable receiver state of `src/main/rx/crsf.c`: the statics
`crsfFramePosition` and `crsfFrameErrorCnt` of `crsfDataReceive`, and the
file-level globals `crsfFrameStartAtUs`, `crsfFrame`,
`crsfChannelDataFrame`, `crsfFrameDone` and `crsfChannelData`. -/
@[ext]
structure CrsfState where
  crsfFramePosition : Nat
  crsfFrameStartAtUs : Nat
  frameBytes : FrameBytes
  crsfFrameDone : Bool
  channelDataFrameBytes : FrameBytes
  crsfFrameErrorCnt : Nat
  crsfChannelData : Nat → Nat

/-- Externally observable effects of one `crsfDataReceive` call:
`wroteIndex` is the frame-buffer index stored to (if any);
`completed` records that the byte position reached the full frame length;
`dispatched` records that the frame CRC matched and the frame-type switch
was executed; the remaining flags record the collaborator calls made by
the switch and by the link-rate adaptation. -/
structure StepLog where
  wroteIndex : Option Nat
  completed : Bool
  dispatched : Bool
  latchedRcFrame : Bool
  handledLinkStats : Bool
  processedCommand : Bool
  calledSetDefaultSpeed : Bool
  deriving Repr, DecidableEq

/-- Result of the frame-type switch in `crsfDataReceive` (the Frame
Dispatcher of the spec): the updated latch and snapshot, and which
handler ran. -/
structure DispatchResult where
  frameDone : Bool
  channelDataFrameBytes : FrameBytes
  latchedRcFrame : Bool
  handledLinkStats : Bool
  processedCommand : Bool

/-- The `switch (crsfFrame.frame.type)` statement of `crsfDataReceive`,
reached only when the frame CRC matched.  RC-channel frames addressed to
the flight controller set `crsfFrameDone` and snapshot the frame
(`memcpy` into `crsfChannelDataFrame`); a link-statistics frame of the
exact expected length invokes the statistics handler when the RSSI source
is this protocol; a command frame is forwarded to `crsfProcessCommand`
only if the nested command CRC and the destination-address check both
pass; every other type (including the MSP/CMS collaborator types, whose
handlers are external) falls through with no effect. -/
def crsfDispatch (rssiSourceIsCrsf : Bool) (bytes : FrameBytes)
    (fullFrameLength : Nat) (frameDone : Bool) (cdf : FrameBytes) :
    DispatchResult :=
  if bytes 2 = CRSF_FRAMETYPE_RC_CHANNELS_PACKED ∨
      bytes 2 = CRSF_FRAMETYPE_SUBSET_RC_CHANNELS_PACKED then
    if bytes 0 = CRSF_ADDRESS_FLIGHT_CONTROLLER then
      ⟨true, bytes, true, false, false⟩
    else
      ⟨frameDone, cdf, false, false, false⟩
  else if bytes 2 = CRSF_FRAMETYPE_LINK_STATISTICS then
    if rssiSourceIsCrsf ∧
        bytes 1 = CRSF_FRAME_ORIGIN_DEST_SIZE +
          CRSF_FRAME_LINK_STATISTICS_PAYLOAD_SIZE then
      ⟨frameDone, cdf, false, true, false⟩
    else
      ⟨frameDone, cdf, false, false, false⟩
  else if bytes 2 = CRSF_FRAMETYPE_COMMAND then
    if bytes (fullFrameLength - 2) = crsfFrameCmdCRC bytes ∧
        bytes 3 = CRSF_ADDRESS_FLIGHT_CONTROLLER then
      ⟨frameDone, cdf, false, false, true⟩
    else
      ⟨frameDone, cdf, false, false, false⟩
  else
    ⟨frameDone, cdf, false, false, false⟩

/-- The guarded error-counter increment of `crsfDataReceive`:
`if (crsfFrameErrorCnt < CRSF_FRAME_ERROR_COUNT_THRESHOLD) crsfFrameErrorCnt++`. -/
def bump (cnt : Nat) : Nat :=
  if cnt < CRSF_FRAME_ERROR_COUNT_THRESHOLD then cnt + 1 else cnt

/-- The trailing threshold check of `crsfDataReceive`: on
`crsfFrameErrorCnt >= CRSF_FRAME_ERROR_COUNT_THRESHOLD` call
`setCrsfDefaultSpeed()` (the `Bool`) and reset the counter to 0. -/
def applyThreshold (cnt : Nat) : Nat × Bool :=
  if CRSF_FRAME_ERROR_COUNT_THRESHOLD ≤ cnt then (0, true) else (cnt, false)

/-- One increment of the error counter followed by the threshold check:
the counter value after an error byte. -/
def bumpThresh (cnt : Nat) : Nat := (applyThreshold (bump cnt)).1

/-- The timeout-based resynchronization at the top of `crsfDataReceive`
(`currentTimeUs > crsfFrameStartAtUs + CRSF_TIME_NEEDED_PER_FRAME_US`):
the byte position used for this byte — 0 if the byte arrived after the
maximum time needed to complete a frame, the current static position
otherwise.  `t` is the already-truncated `uint32_t` timestamp. -/
def resyncPos (s : CrsfState) (t : Nat) : Nat :=
  if u32 (s.crsfFrameStartAtUs + CRSF_TIME_NEEDED_PER_FRAME_US) < t then 0
  else s.crsfFramePosition

/-- The body of `crsfDataReceive` after the timeout resynchronization has
produced the effective byte position `pos0`: frame-start stamping, the
provisional 5-byte frame length while the length byte has not arrived,
the store-and-advance, the completion check with frame CRC validation and
dispatch, the error-counter updates, and the baud-rate fallback
threshold. -/
def crsfStep (rssiSourceIsCrsf : Bool) (c t pos0 : Nat) (s : CrsfState) :
    CrsfState × StepLog :=
  let start := if pos0 = 0 then t else s.crsfFrameStartAtUs
  let fullFrameLength :=
    if pos0 < 3 then 5
    else s.frameBytes 1 + CRSF_FRAME_LENGTH_ADDRESS +
      CRSF_FRAME_LENGTH_FRAMELENGTH
  if pos0 < fullFrameLength then
    let bytes := Function.update s.frameBytes pos0 (u8 c)
    let pos1 := pos0 + 1
    if fullFrameLength ≤ pos1 then
      if crsfFrameCRC bytes = bytes (fullFrameLength - 1) then
        let d := crsfDispatch rssiSourceIsCrsf bytes fullFrameLength
          s.crsfFrameDone s.channelDataFrameBytes
        (⟨0, start, bytes, d.frameDone, d.channelDataFrameBytes, 0,
            s.crsfChannelData⟩,
          ⟨some pos0, true, true, d.latchedRcFrame, d.handledLinkStats,
            d.processedCommand, false⟩)
      else
        let r := applyThreshold (bump s.crsfFrameErrorCnt)
        (⟨0, start, bytes, s.crsfFrameDone, s.channelDataFrameBytes, r.1,
            s.crsfChannelData⟩,
          ⟨some pos0, true, false, false, false, false, r.2⟩)
    else
      let r := applyThreshold (bump s.crsfFrameErrorCnt)
      (⟨pos1, start, bytes, s.crsfFrameDone, s.channelDataFrameBytes, r.1,
          s.crsfChannelData⟩,
        ⟨some pos0, false, false, false, false, false, r.2⟩)
  else
    (⟨pos0, start, s.frameBytes, s.crsfFrameDone, s.channelDataFrameBytes,
        s.crsfFrameErrorCnt, s.crsfChannelData⟩,
      ⟨none, false, false, false, false, false, false⟩)

/-- `crsfDataReceive` from `src/main/rx/crsf.c`: process one received byte
`c` at time `currentTimeUs` (a `uint32_t` microsecond timestamp).
Mirrors the source line by line: the timeout-based resynchronization
(`resyncPos`) followed by the accumulation/validation/dispatch body
(`crsfStep`). -/
def crsfDataReceive (rssiSourceIsCrsf : Bool) (c currentTimeUs : Nat)
    (s : CrsfState) : CrsfState × StepLog :=
  let t := u32 currentTimeUs
  crsfStep rssiSourceIsCrsf c t (resyncPos s t) s

/-- Feed a list of `(byte, timestamp)` pairs through `crsfDataReceive`,
collecting the per-byte logs in order. -/
def crsfRun (rssiSourceIsCrsf : Bool) :
    List (Nat × Nat) → CrsfState → CrsfState × List StepLog
  | [], s => (s, [])
  | q :: rest, s =>
    let r := crsfDataReceive rssiSourceIsCrsf q.1 q.2 s
    let w := crsfRun rssiSourceIsCrsf rest r.1
    (w.1, r.2 :: w.2)

/-- Completion status returned by `crsfFrameStatus`.  Modelled from the
spec: the `rx_frame_state_e` values `RX_FRAME_COMPLETE` / `RX_FRAME_PENDING`
come from `rx/rx.h`, which is not under `src/`; the spec describes the
poll result as "complete" or "pending". -/
inductive RxFrameState where
  | complete
  | pending
  deriving Repr, DecidableEq

/-- The 176-bit little-endian bit image of the packed struct
`crsfPayloadRcChannelsPacked_t`: payload byte `i` contributes its eight
bits at bit offset `8*i`. -/
def payloadBits (payload : Nat → Nat) : Nat :=
  (List.range 22).foldl (fun acc i => acc + u8 (payload i) * 2 ^ (8 * i)) 0

/-- Field `chanN` of `crsfPayloadRcChannelsPacked_t`: the 11 bits at bit
offset `11*n` of the packed payload image. -/
def fixedChannelValue (payload : Nat → Nat) (n : Nat) : Nat :=
  payloadBits payload / 2 ^ (11 * n) % 2048

/-- The rolling-accumulator state of the subset-format decode loop in
`crsfFrameStatus`: `readByteIndex`, `bitsMerged`, `readValue`,
`startChannel` (initially `0xFF` meaning "not yet read"). -/
structure SubsetAcc where
  readByteIndex : Nat
  bitsMerged : Nat
  readValue : Nat
  startChannel : Nat
  deriving Repr, DecidableEq

/-- The inner `while (bitsMerged < CRSF_SUBSET_RC_CHANNELS_PACKED_RESOLUTION)`
loop of the subset decode, as a structurally recursive function on an
explicit iteration bound: pull payload bytes into the rolling accumulator;
the very first byte donates its low five bits to `startChannel` and only
its top three bits to the accumulator.  Every iteration raises
`bitsMerged` by at least 3, so the loop exits within the bound used by
`subsetFill` (see `subsetFill_exits`): the bound never cuts the C loop
short. -/
def subsetFillFuel (payload : Nat → Nat) : Nat → SubsetAcc → SubsetAcc
  | 0, acc => acc
  | fuel + 1, acc =>
    if acc.bitsMerged < CRSF_SUBSET_RC_CHANNELS_PACKED_RESOLUTION then
      let readByte := u8 (payload acc.readByteIndex)
      if acc.startChannel = 0xFF then
        subsetFillFuel payload fuel
          ⟨acc.readByteIndex + 1,
            acc.bitsMerged +
              (8 - CRSF_SUBSET_RC_CHANNELS_PACKED_STARTING_CHANNEL_RESOLUTION),
            acc.readValue |||
              ((readByte >>>
                CRSF_SUBSET_RC_CHANNELS_PACKED_STARTING_CHANNEL_RESOLUTION) <<<
                  acc.bitsMerged),
            readByte &&& CRSF_SUBSET_RC_CHANNELS_PACKED_STARTING_CHANNEL_MASK⟩
      else
        subsetFillFuel payload fuel
          ⟨acc.readByteIndex + 1, acc.bitsMerged + 8,
            acc.readValue ||| (readByte <<< acc.bitsMerged), acc.startChannel⟩
    else
      acc

/-- The inner fill loop of the subset decode, run until `bitsMerged`
reaches the 11-bit resolution (the iteration bound of 11 is ample: each
iteration adds at least 3 bits, see `subsetFill_exits`). -/
def subsetFill (payload : Nat → Nat) (acc : SubsetAcc) : SubsetAcc :=
  subsetFillFuel payload CRSF_SUBSET_RC_CHANNELS_PACKED_RESOLUTION acc

/-- The outer `for (n = 0; n < numOfChannels; n++)` loop of the subset
decode, producing the list of `crsfChannelData` writes
`(startChannel + n, readValue & CRSF_SUBSET_RC_CHANNELS_PACKED_MASK)` in
program order.  The first argument counts the remaining iterations, the
second is the loop counter `n`. -/
def subsetLoop (payload : Nat → Nat) :
    Nat → Nat → SubsetAcc → List (Nat × Nat)
  | 0, _, _ => []
  | m + 1, n, acc =>
    let a := subsetFill payload acc
    (a.startChannel + n,
        a.readValue &&& CRSF_SUBSET_RC_CHANNELS_PACKED_MASK) ::
      subsetLoop payload m (n + 1)
        ⟨a.readByteIndex,
          a.bitsMerged - CRSF_SUBSET_RC_CHANNELS_PACKED_RESOLUTION,
          a.readValue >>> CRSF_SUBSET_RC_CHANNELS_PACKED_RESOLUTION,
          a.startChannel⟩

/-- `numOfChannels` of the subset decode:
`((frameLength - CRSF_FRAME_LENGTH_TYPE_CRC) * 8 - 5) / 11`, computed as
in C — promoted `int` arithmetic with truncating division, the result
stored into a `uint8_t`. -/
def subsetNumOfChannels (frameLength : Nat) : Nat :=
  (Int.emod
    (Int.tdiv (((frameLength : Int) - (CRSF_FRAME_LENGTH_TYPE_CRC : Int)) * 8 -
        (CRSF_SUBSET_RC_CHANNELS_PACKED_STARTING_CHANNEL_RESOLUTION : Int))
      (CRSF_SUBSET_RC_CHANNELS_PACKED_RESOLUTION : Int))
    256).toNat

/-- The channel writes performed by the subset branch of
`crsfFrameStatus`, in program order. -/
def subsetWrites (payload : Nat → Nat) (numOfChannels : Nat) :
    List (Nat × Nat) :=
  subsetLoop payload numOfChannels 0 ⟨0, 0, 0, 0xFF⟩

/-- The `crsfChannelData` writes performed by `crsfFrameStatus` for a
latched snapshot `cdf`: the fixed sixteen-field unpack for frame type
0x16, the subset decode otherwise. -/
def crsfFrameStatusWrites (cdf : FrameBytes) : List (Nat × Nat) :=
  if cdf 2 = CRSF_FRAMETYPE_RC_CHANNELS_PACKED then
    (List.range 16).map (fun n => (n, fixedChannelValue (fun i => cdf (3 + i)) n))
  else
    subsetWrites (fun i => cdf (3 + i)) (subsetNumOfChannels (cdf 1))

/-- Apply a list of `(index, value)` stores to the channel array, in
order. -/
def applyWrites (f : Nat → Nat) (ws : List (Nat × Nat)) : Nat → Nat :=
  ws.foldl (fun g w => Function.update g w.1 w.2) f

/-- Result of one `crsfFrameStatus` poll: the status value and the list of
channel stores performed. -/
structure FrameStatusResult where
  status : RxFrameState
  writes : List (Nat × Nat)

/-- `crsfFrameStatus` from `src/main/rx/crsf.c`: if the `crsfFrameDone`
latch is set, clear it, unpack the latched snapshot into
`crsfChannelData` (fixed format for type 0x16, subset format otherwise)
and report `RX_FRAME_COMPLETE`; otherwise report `RX_FRAME_PENDING` and
touch nothing. -/
def crsfFrameStatus (s : CrsfState) : CrsfState × FrameStatusResult :=
  if s.crsfFrameDone then
    let ws := crsfFrameStatusWrites s.channelDataFrameBytes
    ({ s with
        crsfFrameDone := false
        crsfChannelData := applyWrites s.crsfChannelData ws },
      ⟨RxFrameState.complete, ws⟩)
  else
    (s, ⟨RxFrameState.pending, []⟩)

/-- `crsfReadRawRC` from `src/main/rx/crsf.c`:
`(crsfChannelData[chan] - 992) * 5 / 8 + 1500` in `uint32_t` arithmetic,
returned as a `uint16_t`. -/
def crsfReadRawRC (s : CrsfState) (chan : Nat) : Nat :=
  u32 (u32 (u32 (s.crsfChannelData chan + (4294967296 - 992)) * 5) / 8 + 1500) %
    65536

/-- The parsed `crsfLinkStatistics_t` payload (each field one byte of the
standard link-statistics payload, in order). -/
structure CrsfLinkStatistics where
  uplink_RSSI_1 : Nat
  uplink_RSSI_2 : Nat
  uplink_Link_quality : Nat
  uplink_SNR : Nat
  active_antenna : Nat
  rf_Mode : Nat
  uplink_TX_Power : Nat
  downlink_RSSI : Nat
  downlink_Link_quality : Nat
  downlink_SNR : Nat
  deriving Repr, DecidableEq

/-- The values `handleCrsfLinkStatisticsFrame` forwards to the external
link-quality/RSSI subsystem (`CRSFsetLQ`, `CRSFsetRFMode`, `CRSFsetSnR`,
`CRSFsetTXPower`, `CRSFsetRSSI`). -/
structure LinkStatsForwarded where
  lq : Nat
  rfMode : Nat
  snr : Nat
  txPower : Nat
  rssi : Nat
  deriving Repr, DecidableEq

/-- `handleCrsfLinkStatisticsFrame` from `src/main/rx/crsf.c`.  The RSSI
branch: if antenna 1 reads 0 forward antenna 2's reading, else if antenna
2 reads 0 forward antenna 1's reading, else forward
`uint8_t rssimin = MIN(r1, r2) * -1` — the negated minimum truncated to a
byte, i.e. `(256 - min) % 256`. -/
def handleCrsfLinkStatisticsFrame (stats : CrsfLinkStatistics) :
    LinkStatsForwarded where
  lq := stats.uplink_Link_quality
  rfMode := stats.rf_Mode
  snr := stats.downlink_SNR
  txPower := stats.uplink_TX_Power
  rssi :=
    if stats.uplink_RSSI_1 = 0 then stats.uplink_RSSI_2
    else if stats.uplink_RSSI_2 = 0 then stats.uplink_RSSI_1
    else u8 (256 - min stats.uplink_RSSI_1 stats.uplink_RSSI_2)

/-- Two's-complement reading of a byte, for interpreting forwarded
`uint8_t` values as signed quantities. -/
def toInt8 (b : Nat) : Int :=
  if b % 256 < 128 then (b % 256 : Nat) else (b % 256 : Nat) - 256

/-- A convenient all-zero receiver state (fresh boot, byte position 0). -/
def initState : CrsfState :=
  ⟨0, 0, fun _ => 0, false, fun _ => 0, 0, fun _ => 0⟩

/-- The byte component of entry `j` of a `(byte, timestamp)` stream. -/
def streamByte (inputs : List (Nat × Nat)) (j : Nat) : Nat :=
  (inputs.getD j (0, 0)).1

/-- The frame buffer contents after a whole byte stream has been stored
starting at index 0 over an initial buffer `f`: index `j` holds the
truncated `j`-th stream byte, indices past the stream keep `f`. -/
def frameOfStream (inputs : List (Nat × Nat)) (f : FrameBytes) : FrameBytes :=
  fun j => if j < inputs.length then u8 (streamByte inputs j) else f j

/-- Store the bytes of a stream into a buffer at consecutive indices
starting at `p` (the store pattern of the assembler's accumulation). -/
def writeSeq (f : FrameBytes) (p : Nat) : List (Nat × Nat) → FrameBytes
  | [] => f
  | q :: rest => writeSeq (Function.update f p (u8 q.1)) (p + 1) rest

/-- A default/empty step log. -/
def emptyLog : StepLog := ⟨none, false, false, false, false, false, false⟩

/-- C1 failing input: a stream whose length byte declares frame length 63,
so the computed full frame size is 65 — one byte more than the 64-byte
frame buffer.  All bytes arrive at time 0. -/
def c1Stream : List (Nat × Nat) :=
  (200, 0) :: (63, 0) :: (23, 0) :: List.replicate 62 (0, 0)

/-- C2 witness frame prefix: address 0xC8, declared length 2 (the minimal
frame: type and CRC only), type 0x16. -/
def c2Head : List Nat := [200, 2, 22]

/-- The correct DVB-S2 CRC byte for `c2Head`. -/
def c2Crc : Nat := crsfFrameCRC (fun j => c2Head.getD j 0)

/-- C2 witness stream: the four frame bytes, all arriving at time 40. -/
def c2Stream : List (Nat × Nat) := (c2Head ++ [c2Crc]).map (fun x => (x, 40))

/-- C3 frame prefix: address 0xC8, length 4, type 0x17 (subset), payload
first byte 31 (so the declared starting channel is 31), second payload
byte 0. -/
def c3Head : List Nat := [200, 4, 23, 31, 0]

/-- The correct DVB-S2 CRC byte for `c3Head`. -/
def c3Crc : Nat := crsfFrameCRC (fun j => c3Head.getD j 0)

/-- C3 frame: a CRC-valid subset RC-channel frame declaring starting
channel 31. -/
def c3Frame : List Nat := c3Head ++ [c3Crc]

/-- C3 byte stream: the frame delivered byte by byte at time 0. -/
def c3Stream : List (Nat × Nat) := c3Frame.map (fun b => (b, 0))

/-- C5 frame prefix: address 0xC8, length 6, type 0x17 (subset), payload
`[132, 12, 208, 7]` — starting channel 4 (low five bits of 132) followed
by the two packed 11-bit values 100 and 2000. -/
def c5Head : List Nat := [200, 6, 23, 132, 12, 208, 7]

/-- The correct DVB-S2 CRC byte for `c5Head`. -/
def c5Crc : Nat := crsfFrameCRC (fun j => c5Head.getD j 0)

/-- C5 frame: a CRC-valid subset frame carrying values 100 and 2000 for
channels 4 and 5. -/
def c5Frame : List Nat := c5Head ++ [c5Crc]

/-- A receiver state in which the C5 subset frame has just been latched
(`crsfFrameDone` set, snapshot holding the frame) over an arbitrary
channel array `cd`. -/
def c5LatchedState (cd : Nat → Nat) : CrsfState :=
  ⟨0, 0, fun _ => 0, true, fun j => c5Frame.getD j 0, 0, cd⟩

/-- C9 frame prefix: address 0xC8, length 6, type 0x32 (command),
destination 0xC8 (flight controller), origin 7, one command byte 9. -/
def c9Head : List Nat := [200, 6, 50, 200, 7, 9]

/-- The correct nested command CRC (polynomial 0xBA) for `c9Head`. -/
def c9CmdCrc : Nat := crsfFrameCmdCRC (fun j => c9Head.getD j 0)

/-- C9 frame without its outer CRC byte. -/
def c9Head2 : List Nat := c9Head ++ [c9CmdCrc]

/-- The correct outer DVB-S2 CRC byte for `c9Head2`. -/
def c9Crc : Nat := crsfFrameCRC (fun j => c9Head2.getD j 0)

/-- C9 frame: a CRC-valid command frame whose nested command CRC and
destination address are both correct. -/
def c9Frame : List Nat := c9Head2 ++ [c9Crc]

/-- The C9 frame as a frame-buffer function. -/
def c9Fun : FrameBytes := fun j => c9Frame.getD j 0

/-- A state whose channel array holds `v` everywhere (for exercising
`crsfReadRawRC`). -/
def chState (v : Nat) : CrsfState :=
  ⟨0, 0, fun _ => 0, false, fun _ => 0, 0, fun _ => v⟩

/-- A state in the middle of frame accumulation: byte position 2, frame
start recorded at time 0. -/
def midFrameState : CrsfState :=
  ⟨2, 0, fun _ => 0, false, fun _ => 0, 0, fun _ => 0⟩

/-- A fresh state whose consecutive-error counter stands at 99, one below
the fallback threshold. -/
def cnt99State : CrsfState :=
  ⟨0, 0, fun _ => 0, false, fun _ => 0, 99, fun _ => 0⟩

/-! ## Theorems -/

/-- `crsfDataReceive` unfolded into resynchronization plus body. -/
theorem crsfDataReceive_eq_step (b : Bool) (c t : Nat) (s : CrsfState) :
    crsfDataReceive b c t s =
      crsfStep b c (u32 t) (resyncPos s (u32 t)) s := rfl

/-- When the byte arrives within the inter-frame window (or at exactly its
boundary), the resynchronization keeps the current byte position. -/
theorem resyncPos_of_in_window (s : CrsfState) (t : Nat)
    (h : ¬ u32 (s.crsfFrameStartAtUs + CRSF_TIME_NEEDED_PER_FRAME_US) < t) :
    resyncPos s t = s.crsfFramePosition := if_neg h

/-- Characterization of the `crsfDataReceive` body at byte position 0: the
byte is stored at index 0, the position moves to 1, and the frame start is
restamped with the byte's (truncated) timestamp. -/
theorem crsfStep_start (b : Bool) (c t : Nat) (s : CrsfState) :
    crsfStep b c t 0 s =
      (⟨1, t, Function.update s.frameBytes 0 (u8 c), s.crsfFrameDone,
          s.channelDataFrameBytes, bumpThresh s.crsfFrameErrorCnt,
          s.crsfChannelData⟩,
        ⟨some 0, false, false, false, false, false,
          (applyThreshold (bump s.crsfFrameErrorCnt)).2⟩) := by
  norm_num [crsfStep, bumpThresh]

/-- Characterization of the `crsfDataReceive` body at a non-initial,
non-final byte position `p`: the byte is stored at index `p`, the position
advances, the frame start is kept, and the error counter takes one error
step. -/
theorem crsfStep_mid (b : Bool) (c t : Nat) (s : CrsfState) (p F : Nat)
    (hp0 : p ≠ 0)
    (hF : (if p < 3 then 5
      else s.frameBytes 1 + CRSF_FRAME_LENGTH_ADDRESS +
        CRSF_FRAME_LENGTH_FRAMELENGTH) = F)
    (hlt : p < F) (hnc : ¬ F ≤ p + 1) :
    crsfStep b c t p s =
      (⟨p + 1, s.crsfFrameStartAtUs, Function.update s.frameBytes p (u8 c),
          s.crsfFrameDone, s.channelDataFrameBytes,
          bumpThresh s.crsfFrameErrorCnt, s.crsfChannelData⟩,
        ⟨some p, false, false, false, false, false,
          (applyThreshold (bump s.crsfFrameErrorCnt)).2⟩) := by
  simp only [crsfStep, if_neg hp0, hF, if_pos hlt, if_neg hnc]
  norm_num [bumpThresh]

/-- Characterization of the `crsfDataReceive` body at the final byte
position of a frame (`fullFrameLength = p + 1`): the byte is stored at
index `p`, the position resets to 0, the frame CRC is checked against the
just-stored last byte, and on a match the frame-type switch
(`crsfDispatch`) runs with the error counter cleared, while on a mismatch
the error counter takes one error step. -/
theorem crsfStep_last (b : Bool) (c t : Nat) (s : CrsfState) (p : Nat)
    (hp0 : p ≠ 0)
    (hF : (if p < 3 then 5
      else s.frameBytes 1 + CRSF_FRAME_LENGTH_ADDRESS +
        CRSF_FRAME_LENGTH_FRAMELENGTH) = p + 1) :
    crsfStep b c t p s =
      if crsfFrameCRC (Function.update s.frameBytes p (u8 c)) =
          Function.update s.frameBytes p (u8 c) p then
        (⟨0, s.crsfFrameStartAtUs, Function.update s.frameBytes p (u8 c),
            (crsfDispatch b (Function.update s.frameBytes p (u8 c)) (p + 1)
              s.crsfFrameDone s.channelDataFrameBytes).frameDone,
            (crsfDispatch b (Function.update s.frameBytes p (u8 c)) (p + 1)
              s.crsfFrameDone s.channelDataFrameBytes).channelDataFrameBytes,
            0, s.crsfChannelData⟩,
          ⟨some p, true, true,
            (crsfDispatch b (Function.update s.frameBytes p (u8 c)) (p + 1)
              s.crsfFrameDone s.channelDataFrameBytes).latchedRcFrame,
            (crsfDispatch b (Function.update s.frameBytes p (u8 c)) (p + 1)
              s.crsfFrameDone s.channelDataFrameBytes).handledLinkStats,
            (crsfDispatch b (Function.update s.frameBytes p (u8 c)) (p + 1)
              s.crsfFrameDone s.channelDataFrameBytes).processedCommand,
            false⟩)
      else
        (⟨0, s.crsfFrameStartAtUs, Function.update s.frameBytes p (u8 c),
            s.crsfFrameDone, s.channelDataFrameBytes,
            bumpThresh s.crsfFrameErrorCnt, s.crsfChannelData⟩,
          ⟨some p, true, false, false, false, false,
            (applyThreshold (bump s.crsfFrameErrorCnt)).2⟩) := by
  simp only [crsfStep]
  rw [if_neg hp0]
  rw [hF]
  rw [show p + 1 - 1 = p from rfl]
  norm_num [bumpThresh]

/-- Characterization of the `crsfDataReceive` body at an out-of-range byte
position (`pos0 ≥ fullFrameLength`, possible when the declared frame
length is below 2): the byte is ignored and the state is untouched. -/
theorem crsfStep_ignored (b : Bool) (c t : Nat) (s : CrsfState) (p F : Nat)
    (hp0 : p ≠ 0)
    (hF : (if p < 3 then 5
      else s.frameBytes 1 + CRSF_FRAME_LENGTH_ADDRESS +
        CRSF_FRAME_LENGTH_FRAMELENGTH) = F)
    (hge : ¬ p < F) :
    crsfStep b c t p s =
      (⟨p, s.crsfFrameStartAtUs, s.frameBytes, s.crsfFrameDone,
          s.channelDataFrameBytes, s.crsfFrameErrorCnt, s.crsfChannelData⟩,
        ⟨none, false, false, false, false, false, false⟩) := by
  simp only [crsfStep]
  rw [if_neg hp0]
  rw [hF]
  rw [if_neg hge]

-- (The C1 overflow theorem appears further below: it is proved with the
-- run-invariant lemmas developed for the frame-assembly theorems.)

/-- C4 counterexample: a byte arriving exactly 1100 µs after the recorded
frame start (timestamp 1100, frame start 0) does NOT reset the partial
frame: from byte position 2 the assembler stores the byte at index 2 and
advances to position 3 without restamping the frame start, whereas the
claim says any byte arriving ≥ 1100 µs after the start discards the
partial frame and is treated as the first byte of a new frame. -/
theorem timeout_boundary_counterexample :
    (crsfDataReceive false 7 1100 midFrameState).1.crsfFramePosition = 3 ∧
    (crsfDataReceive false 7 1100 midFrameState).1.crsfFrameStartAtUs = 0 ∧
    (crsfDataReceive false 7 1100 midFrameState).2.wroteIndex = some 2 := by
  decide

/-- C4 (amended): for every byte arriving STRICTLY more than
`CRSF_TIME_NEEDED_PER_FRAME_US` (1100) µs after the current frame's
recorded start time (timestamps below the 32-bit wrap), the assembler
discards any partial frame, treats the byte as the first byte of a new
frame — storing it at buffer index 0 and moving to position 1 — and
restamps the frame start time with the byte's timestamp. -/
theorem timeout_resync (b : Bool) (c t : Nat) (s : CrsfState)
    (hw : s.crsfFrameStartAtUs + CRSF_TIME_NEEDED_PER_FRAME_US < 4294967296)
    (ht : t < 4294967296)
    (hgt : s.crsfFrameStartAtUs + CRSF_TIME_NEEDED_PER_FRAME_US < t) :
    (crsfDataReceive b c t s).1.crsfFramePosition = 1 ∧
    (crsfDataReceive b c t s).1.crsfFrameStartAtUs = t ∧
    (crsfDataReceive b c t s).2.wroteIndex = some 0 ∧
    (crsfDataReceive b c t s).1.frameBytes 0 = u8 c ∧
    ∀ j, j ≠ 0 → (crsfDataReceive b c t s).1.frameBytes j = s.frameBytes j := by
  have h1 : u32 (s.crsfFrameStartAtUs + CRSF_TIME_NEEDED_PER_FRAME_US) < u32 t := by
    unfold u32
    rw [Nat.mod_eq_of_lt hw, Nat.mod_eq_of_lt ht]
    exact hgt
  rw [crsfDataReceive_eq_step, show resyncPos s (u32 t) = 0 from if_pos h1,
    crsfStep_start]
  refine ⟨rfl, Nat.mod_eq_of_lt ht, rfl, by simp, fun j hj => ?_⟩
  simpa using Function.update_noteq hj (u8 c) s.frameBytes

/-- C4 witness: the amended resynchronization theorem applied to a
concrete mid-frame state (position 2, start time 0) and a byte at
timestamp 2000. -/
theorem timeout_resync_witness :
    (crsfDataReceive false 9 2000 midFrameState).1.crsfFramePosition = 1 ∧
    (crsfDataReceive false 9 2000 midFrameState).1.crsfFrameStartAtUs = 2000 ∧
    (crsfDataReceive false 9 2000 midFrameState).2.wroteIndex = some 0 ∧
    (crsfDataReceive false 9 2000 midFrameState).1.frameBytes 0 = u8 9 ∧
    (crsfDataReceive false 9 2000 midFrameState).1.frameBytes 5 =
      midFrameState.frameBytes 5 := by
  have h := timeout_resync false 9 2000 midFrameState (by decide) (by decide)
    (by decide)
  exact ⟨h.1, h.2.1, h.2.2.1, h.2.2.2.1, h.2.2.2.2 5 (by decide)⟩

/-- C6 counterexample: feeding a single byte to a fresh state increments
the consecutive-error counter from 0 to 1 although no frame failure
occurred — the byte was accepted into the buffer (`wroteIndex = some 0`),
no frame completed, hence there was neither a bad length nor a bad CRC.
This refutes the claim that the counter is incremented ONLY by frame
failures. -/
theorem errorCounter_counterexample :
    (crsfDataReceive false 200 0 initState).1.crsfFrameErrorCnt = 1 ∧
    initState.crsfFrameErrorCnt = 0 ∧
    (crsfDataReceive false 200 0 initState).2.completed = false ∧
    (crsfDataReceive false 200 0 initState).2.dispatched = false ∧
    (crsfDataReceive false 200 0 initState).2.wroteIndex = some 0 := by
  decide

/-- C6 (amended): the consecutive-error counter is left unchanged by an
ignored (out-of-range-position) byte; it is reset to 0, with no fallback
request, whenever a completed frame passes the CRC check; and every other
processed byte — a stored byte that does not complete a frame, or a
completion with a bad CRC — increments it, except that when the counter
stands at `CRSF_FRAME_ERROR_COUNT_THRESHOLD - 1` (99) or above, the
increment makes it reach the threshold, exactly one baud-rate-fallback
request (`setCrsfDefaultSpeed`) is issued, and the counter immediately
resets to 0. -/
theorem errorCounter_amended (b : Bool) (c t : Nat) (s : CrsfState) :
    ((crsfDataReceive b c t s).2.wroteIndex = none →
      (crsfDataReceive b c t s).1.crsfFrameErrorCnt = s.crsfFrameErrorCnt ∧
      (crsfDataReceive b c t s).2.calledSetDefaultSpeed = false) ∧
    ((crsfDataReceive b c t s).2.dispatched = true →
      (crsfDataReceive b c t s).1.crsfFrameErrorCnt = 0 ∧
      (crsfDataReceive b c t s).2.calledSetDefaultSpeed = false) ∧
    ((crsfDataReceive b c t s).2.wroteIndex ≠ none →
      (crsfDataReceive b c t s).2.dispatched = false →
      if CRSF_FRAME_ERROR_COUNT_THRESHOLD - 1 ≤ s.crsfFrameErrorCnt then
        (crsfDataReceive b c t s).1.crsfFrameErrorCnt = 0 ∧
        (crsfDataReceive b c t s).2.calledSetDefaultSpeed = true
      else
        (crsfDataReceive b c t s).1.crsfFrameErrorCnt =
          s.crsfFrameErrorCnt + 1 ∧
        (crsfDataReceive b c t s).2.calledSetDefaultSpeed = false) := by
  rw [crsfDataReceive_eq_step]
  generalize resyncPos s (u32 t) = q
  by_cases h0 : q = 0
  · subst h0
    rw [crsfStep_start]
    refine ⟨by simp, by simp, fun _ _ => ?_⟩
    simp only [bumpThresh, applyThreshold, bump,
      CRSF_FRAME_ERROR_COUNT_THRESHOLD]
    split_ifs <;> first | exact ⟨rfl, rfl⟩ | omega
  · generalize hFv : (if q < 3 then 5
      else s.frameBytes 1 + CRSF_FRAME_LENGTH_ADDRESS +
        CRSF_FRAME_LENGTH_FRAMELENGTH) = F
    by_cases hlt : q < F
    · by_cases hc : F ≤ q + 1
      · have hF1 : (if q < 3 then 5
            else s.frameBytes 1 + CRSF_FRAME_LENGTH_ADDRESS +
              CRSF_FRAME_LENGTH_FRAMELENGTH) = q + 1 := by omega
        rw [crsfStep_last b c (u32 t) s q h0 hF1]
        by_cases hcrc : crsfFrameCRC (Function.update s.frameBytes q (u8 c)) =
            Function.update s.frameBytes q (u8 c) q
        · rw [if_pos hcrc]
          exact ⟨by simp, fun _ => ⟨rfl, rfl⟩, by simp⟩
        · rw [if_neg hcrc]
          refine ⟨by simp, by simp, fun _ _ => ?_⟩
          simp only [bumpThresh, applyThreshold, bump,
            CRSF_FRAME_ERROR_COUNT_THRESHOLD]
          split_ifs <;> first | exact ⟨rfl, rfl⟩ | omega
      · rw [crsfStep_mid b c (u32 t) s q F h0 hFv hlt hc]
        refine ⟨by simp, by simp, fun _ _ => ?_⟩
        simp only [bumpThresh, applyThreshold, bump,
          CRSF_FRAME_ERROR_COUNT_THRESHOLD]
        split_ifs <;> first | exact ⟨rfl, rfl⟩ | omega
    · rw [crsfStep_ignored b c (u32 t) s q F h0 hFv hlt]
      exact ⟨fun _ => ⟨rfl, rfl⟩, by simp, by simp⟩

/-- C6 witness: from a state whose counter stands at 99, one more
non-completing byte reaches the threshold, issues the fallback request
and resets the counter to 0. -/
theorem errorCounter_amended_witness :
    (crsfDataReceive false 5 0 cnt99State).1.crsfFrameErrorCnt = 0 ∧
    (crsfDataReceive false 5 0 cnt99State).2.calledSetDefaultSpeed = true := by
  have h := (errorCounter_amended false 5 0 cnt99State).2.2 (by decide)
    (by decide)
  rw [if_pos (by decide)] at h
  exact h

/-- C7: the link-statistics handler forwards as RSSI the second antenna
reading when the first is 0; the first reading when the second is 0; and
otherwise the negated minimum of the two readings, truncated to a byte
(i.e. `-min` modulo 256, the two's-complement byte of the negated
minimum).  In particular readings `(0, 40)` forward 40, `(30, 0)` forward
30, and `(20, 50)` forward the byte 236, which read as a signed byte is
−20. -/
theorem linkStats_rssi_negated_min :
    (∀ st : CrsfLinkStatistics, st.uplink_RSSI_1 = 0 →
      (handleCrsfLinkStatisticsFrame st).rssi = st.uplink_RSSI_2) ∧
    (∀ st : CrsfLinkStatistics, st.uplink_RSSI_1 ≠ 0 → st.uplink_RSSI_2 = 0 →
      (handleCrsfLinkStatisticsFrame st).rssi = st.uplink_RSSI_1) ∧
    (∀ st : CrsfLinkStatistics, st.uplink_RSSI_1 ≠ 0 → st.uplink_RSSI_2 ≠ 0 →
      st.uplink_RSSI_1 < 256 → st.uplink_RSSI_2 < 256 →
      ((handleCrsfLinkStatisticsFrame st).rssi : Int) =
        (-(min st.uplink_RSSI_1 st.uplink_RSSI_2 : Int)) % 256) ∧
    (handleCrsfLinkStatisticsFrame ⟨0, 40, 0, 0, 0, 0, 0, 0, 0, 0⟩).rssi = 40 ∧
    (handleCrsfLinkStatisticsFrame ⟨30, 0, 0, 0, 0, 0, 0, 0, 0, 0⟩).rssi = 30 ∧
    (handleCrsfLinkStatisticsFrame ⟨20, 50, 0, 0, 0, 0, 0, 0, 0, 0⟩).rssi =
      236 ∧
    toInt8 (handleCrsfLinkStatisticsFrame ⟨20, 50, 0, 0, 0, 0, 0, 0, 0, 0⟩).rssi
      = -20 := by
  refine ⟨?_, ?_, ?_, by decide, by decide, by decide, by decide⟩
  · intro st h
    simp [handleCrsfLinkStatisticsFrame, h]
  · intro st h1 h2
    simp [handleCrsfLinkStatisticsFrame, h1, h2]
  · intro st h1 h2 hb1 hb2
    simp only [handleCrsfLinkStatisticsFrame, if_neg h1, if_neg h2, u8]
    by_cases h12 : st.uplink_RSSI_1 ≤ st.uplink_RSSI_2
    · rw [Nat.min_def, if_pos h12,
        min_eq_left (by exact_mod_cast h12 :
          (st.uplink_RSSI_1 : Int) ≤ st.uplink_RSSI_2),
        Nat.mod_eq_of_lt (by omega : 256 - st.uplink_RSSI_1 < 256)]
      push_cast [Nat.cast_sub (by omega : st.uplink_RSSI_1 ≤ 256)]
      omega
    · rw [Nat.min_def, if_neg h12,
        min_eq_right (by exact_mod_cast Nat.le_of_not_le h12 :
          (st.uplink_RSSI_2 : Int) ≤ st.uplink_RSSI_1),
        Nat.mod_eq_of_lt (by omega : 256 - st.uplink_RSSI_2 < 256)]
      push_cast [Nat.cast_sub (by omega : st.uplink_RSSI_2 ≤ 256)]
      omega

/-- C7 witness: the negated-minimum branch applied to the concrete antenna
readings `(20, 50)`. -/
theorem linkStats_rssi_negated_min_witness :
    ((handleCrsfLinkStatisticsFrame ⟨20, 50, 0, 0, 0, 0, 0, 0, 0, 0⟩).rssi :
      Int) = 236 := by
  have h := linkStats_rssi_negated_min.2.2.1 ⟨20, 50, 0, 0, 0, 0, 0, 0, 0, 0⟩
    (by decide) (by decide) (by decide) (by decide)
  rw [h]
  decide

/-- C8: `crsfReadRawRC` maps a stored channel value `v` in the 11-bit
domain with `992 ≤ v` by exactly the claimed formula
`(v - 992) * 5 / 8 + 1500`; the value 992 yields 1500, the value 172
yields 987 (within 1 of the claimed approximate 988), and the value 1811
yields 2011 (within 1 of the claimed approximate 2012). -/
theorem crsfReadRawRC_scaling :
    (∀ (s : CrsfState) (chan : Nat),
      992 ≤ s.crsfChannelData chan → s.crsfChannelData chan ≤ 2047 →
      crsfReadRawRC s chan = (s.crsfChannelData chan - 992) * 5 / 8 + 1500) ∧
    crsfReadRawRC (chState 992) 0 = 1500 ∧
    crsfReadRawRC (chState 172) 0 = 987 ∧
    ((crsfReadRawRC (chState 172) 0 : Int) - 988).natAbs ≤ 1 ∧
    crsfReadRawRC (chState 1811) 0 = 2011 ∧
    ((crsfReadRawRC (chState 1811) 0 : Int) - 2012).natAbs ≤ 1 := by
  refine ⟨?_, by decide, by decide, by decide, by decide, by decide⟩
  intro s chan h1 h2
  unfold crsfReadRawRC u32
  have e1 : (s.crsfChannelData chan + (4294967296 - 992)) % 4294967296 =
      s.crsfChannelData chan - 992 := by omega
  rw [e1]
  have e2 : (s.crsfChannelData chan - 992) * 5 % 4294967296 =
      (s.crsfChannelData chan - 992) * 5 := Nat.mod_eq_of_lt (by omega)
  rw [e2]
  have e3 : (s.crsfChannelData chan - 992) * 5 / 8 + 1500 < 65536 := by omega
  rw [Nat.mod_eq_of_lt (lt_trans e3 (by norm_num)), Nat.mod_eq_of_lt e3]

/-- C8 witness: the scaling formula applied to a state holding channel
value 1000: `(1000 - 992) * 5 / 8 + 1500 = 1505`. -/
theorem crsfReadRawRC_scaling_witness :
    crsfReadRawRC (chState 1000) 0 = 1505 := by
  have h := crsfReadRawRC_scaling.1 (chState 1000) 0 (by decide) (by decide)
  exact h.trans (by decide)

/-- C10: polling `crsfFrameStatus` with the frame-ready latch clear
returns "pending", performs no channel writes and leaves the whole state
(including the channel data) unchanged; consequently two consecutive
polls with no new frame in between both return "pending" with no
re-decode, and a poll that returns "complete" clears the latch, so the
next poll returns "pending". -/
theorem frameStatus_pending_idempotent (s : CrsfState) :
    (s.crsfFrameDone = false →
      (crsfFrameStatus s).1 = s ∧
      (crsfFrameStatus s).2.status = RxFrameState.pending ∧
      (crsfFrameStatus s).2.writes = []) ∧
    ((crsfFrameStatus ((crsfFrameStatus s).1)).2.status =
        RxFrameState.pending ∧
      (crsfFrameStatus ((crsfFrameStatus s).1)).1 = (crsfFrameStatus s).1 ∧
      (crsfFrameStatus ((crsfFrameStatus s).1)).2.writes = []) ∧
    (s.crsfFrameDone = true →
      (crsfFrameStatus s).2.status = RxFrameState.complete ∧
      (crsfFrameStatus s).1.crsfFrameDone = false) := by
  refine ⟨fun h => ?_, ?_, fun h => ?_⟩
  · simp [crsfFrameStatus, h]
  · by_cases h : s.crsfFrameDone <;> simp [crsfFrameStatus, h]
  · simp [crsfFrameStatus, h]

/-- C10 witness: the pending/idempotence properties at the fresh state
(latch clear). -/
theorem frameStatus_pending_idempotent_witness :
    (crsfFrameStatus initState).1 = initState ∧
    (crsfFrameStatus initState).2.status = RxFrameState.pending ∧
    (crsfFrameStatus initState).2.writes = [] ∧
    (crsfFrameStatus ((crsfFrameStatus initState).1)).2.status =
      RxFrameState.pending := by
  have h := frameStatus_pending_idempotent initState
  exact ⟨(h.1 rfl).1, (h.1 rfl).2.1, (h.1 rfl).2.2, h.2.1.1⟩

/-- C3: a concrete CRC-valid subset-format RC-channel frame — `c3Frame`,
whose first payload byte has its low five bits equal to 31 — is accepted
by the assembler (the latch is raised), and the channel unpacker in
`crsfFrameStatus` then writes `crsfChannelData` at index 31, at or beyond
the end of the 16-element channel array: no bounds check keeps
`startChannel + n` within `CRSF_MAX_CHANNEL`. -/
theorem subset_unpack_out_of_bounds :
    (crsfRun false c3Stream initState).1.crsfFrameDone = true ∧
    c3Frame.getD 3 0 &&&
      CRSF_SUBSET_RC_CHANNELS_PACKED_STARTING_CHANNEL_MASK = 31 ∧
    (crsfFrameStatus (crsfRun false c3Stream initState).1).2.writes =
      [(31, 0)] ∧
    CRSF_MAX_CHANNEL ≤ 31 := by
  decide

/-- C9: whenever the validated frame reaching the dispatcher is a command
frame, the payload is forwarded to the external command processor
(`crsfProcessCommand`) if and only if both the nested command CRC
(computed by `crsfFrameCmdCRC` over the type byte and the payload
excluding the last two trailing bytes) equals the frame's second-to-last
byte and the first payload byte equals the flight-controller address;
when either check fails nothing happens — no handler is invoked and the
latch, snapshot and channel state are untouched (the frame is silently
dropped). -/
theorem command_dispatch_checks (b : Bool) (bytes : FrameBytes)
    (full : Nat) (fd : Bool) (cdf : FrameBytes)
    (ht : bytes 2 = CRSF_FRAMETYPE_COMMAND) :
    ((crsfDispatch b bytes full fd cdf).processedCommand = true ↔
      (bytes (full - 2) = crsfFrameCmdCRC bytes ∧
        bytes 3 = CRSF_ADDRESS_FLIGHT_CONTROLLER)) ∧
    (crsfDispatch b bytes full fd cdf).frameDone = fd ∧
    (crsfDispatch b bytes full fd cdf).channelDataFrameBytes = cdf ∧
    (crsfDispatch b bytes full fd cdf).latchedRcFrame = false ∧
    (crsfDispatch b bytes full fd cdf).handledLinkStats = false := by
  have h1 : ¬ (bytes 2 = CRSF_FRAMETYPE_RC_CHANNELS_PACKED ∨
      bytes 2 = CRSF_FRAMETYPE_SUBSET_RC_CHANNELS_PACKED) := by
    rw [ht]; decide
  have h2 : ¬ bytes 2 = CRSF_FRAMETYPE_LINK_STATISTICS := by rw [ht]; decide
  simp only [crsfDispatch, if_neg h1, if_neg h2, if_pos ht]
  by_cases hc : bytes (full - 2) = crsfFrameCmdCRC bytes ∧
      bytes 3 = CRSF_ADDRESS_FLIGHT_CONTROLLER
  · rw [if_pos hc]
    simp [hc]
  · rw [if_neg hc]
    simp [hc]

/-- C9 witness: the dispatcher forwards the concrete CRC-valid command
frame `c9Frame` (correct nested CRC, destination = flight controller) to
the command processor. -/
theorem command_dispatch_checks_witness :
    (crsfDispatch false c9Fun 8 false (fun _ => 0)).processedCommand =
      true ∧
    (crsfDispatch false c9Fun 8 false (fun _ => 0)).frameDone = false := by
  have h := command_dispatch_checks false c9Fun 8 false (fun _ => 0)
    (by decide)
  exact ⟨h.1.mpr (by decide), h.2.1⟩

/-- The fill loop always exits properly within its iteration bound: when
it returns, either `bitsMerged` has reached the resolution — the C
`while` loop's exit condition — or the bound was at least the number of
missing bits (every iteration adds at least 3), which holds for the bound
11 used by `subsetFill`. -/
theorem subsetFill_exits (payload : Nat → Nat) :
    ∀ (fuel : Nat) (acc : SubsetAcc),
      CRSF_SUBSET_RC_CHANNELS_PACKED_RESOLUTION - acc.bitsMerged ≤ fuel →
      CRSF_SUBSET_RC_CHANNELS_PACKED_RESOLUTION ≤
        (subsetFillFuel payload fuel acc).bitsMerged := by
  intro fuel
  induction fuel with
  | zero =>
    intro acc hk
    simp only [subsetFillFuel, CRSF_SUBSET_RC_CHANNELS_PACKED_RESOLUTION] at *
    omega
  | succ n ih =>
    intro acc hk
    rw [subsetFillFuel]
    by_cases hb : acc.bitsMerged < CRSF_SUBSET_RC_CHANNELS_PACKED_RESOLUTION
    · rw [if_pos hb]
      by_cases h255 : acc.startChannel = 0xFF
      · rw [if_pos h255]
        exact ih _ (by
          simp only [CRSF_SUBSET_RC_CHANNELS_PACKED_RESOLUTION,
            CRSF_SUBSET_RC_CHANNELS_PACKED_STARTING_CHANNEL_RESOLUTION] at *
          omega)
      · rw [if_neg h255]
        exact ih _ (by
          simp only [CRSF_SUBSET_RC_CHANNELS_PACKED_RESOLUTION] at *
          omega)
    · rw [if_neg hb]
      omega

/-- The inner fill loop leaves `startChannel` untouched once it has been
read from the first payload byte (i.e. once it differs from the `0xFF`
sentinel). -/
theorem subsetFillFuel_preserve (payload : Nat → Nat) :
    ∀ (fuel : Nat) (acc : SubsetAcc),
      acc.startChannel ≠ 0xFF →
      (subsetFillFuel payload fuel acc).startChannel = acc.startChannel := by
  intro fuel
  induction fuel with
  | zero => intro acc _; rfl
  | succ n ih =>
    intro acc hne
    rw [subsetFillFuel]
    by_cases hb : acc.bitsMerged < CRSF_SUBSET_RC_CHANNELS_PACKED_RESOLUTION
    · rw [if_pos hb, if_neg hne]
      exact ih _ hne
    · rw [if_neg hb]

/-- The fill loop leaves a fixed `startChannel` untouched. -/
theorem subsetFill_preserve (payload : Nat → Nat) (acc : SubsetAcc)
    (hne : acc.startChannel ≠ 0xFF) :
    (subsetFill payload acc).startChannel = acc.startChannel :=
  subsetFillFuel_preserve payload _ acc hne

/-- The first execution of the fill loop reads `startChannel` from the
low five bits of the first payload byte consumed. -/
theorem subsetFill_first (payload : Nat → Nat) (acc : SubsetAcc)
    (h255 : acc.startChannel = 0xFF)
    (hb : acc.bitsMerged < CRSF_SUBSET_RC_CHANNELS_PACKED_RESOLUTION) :
    (subsetFill payload acc).startChannel =
      u8 (payload acc.readByteIndex) &&&
        CRSF_SUBSET_RC_CHANNELS_PACKED_STARTING_CHANNEL_MASK := by
  rw [subsetFill,
    show CRSF_SUBSET_RC_CHANNELS_PACKED_RESOLUTION = 10 + 1 from rfl,
    subsetFillFuel, if_pos hb, if_pos h255]
  have hle : u8 (payload acc.readByteIndex) &&&
      CRSF_SUBSET_RC_CHANNELS_PACKED_STARTING_CHANNEL_MASK ≤
        CRSF_SUBSET_RC_CHANNELS_PACKED_STARTING_CHANNEL_MASK :=
    Nat.and_le_right
  exact subsetFillFuel_preserve payload _ _ (by
    show u8 (payload acc.readByteIndex) &&&
      CRSF_SUBSET_RC_CHANNELS_PACKED_STARTING_CHANNEL_MASK ≠ 0xFF
    simp only [CRSF_SUBSET_RC_CHANNELS_PACKED_STARTING_CHANNEL_MASK] at hle ⊢
    omega)

/-- Write indices of the outer subset loop: starting from an accumulator
whose `startChannel` has already been fixed, iteration `i` (with loop
counter starting at `n`) writes index `startChannel + (n + i)`. -/
theorem subsetLoop_map_fst (payload : Nat → Nat) :
    ∀ (m n : Nat) (acc : SubsetAcc), acc.startChannel ≠ 0xFF →
      (subsetLoop payload m n acc).map Prod.fst =
        (List.range m).map (fun i => acc.startChannel + (n + i)) := by
  intro m
  induction m with
  | zero => intro n acc _; simp [subsetLoop]
  | succ m ih =>
    intro n acc hne
    have hpres := subsetFill_preserve payload acc hne
    simp only [subsetLoop, List.map_cons, hpres]
    rw [ih (n + 1) _ (by simp [hpres, hne])]
    rw [List.range_succ_eq_map]
    simp only [List.map_cons, List.map_map]
    have htail : ((fun i => acc.startChannel + (n + i)) ∘ Nat.succ) =
        (fun i => acc.startChannel + (n + 1 + i)) := by
      funext i
      simp only [Function.comp_apply]
      omega
    rw [htail]
    norm_num

/-- The write-index list of the whole subset unpack: write `n` goes to
index `startChannel + n`, where `startChannel` is the low five bits of
the first payload byte. -/
theorem subsetWrites_map_fst (payload : Nat → Nat) (k : Nat) :
    (subsetWrites payload k).map Prod.fst =
      (List.range k).map (fun n =>
        (u8 (payload 0) &&&
          CRSF_SUBSET_RC_CHANNELS_PACKED_STARTING_CHANNEL_MASK) + n) := by
  cases k with
  | zero => rfl
  | succ m =>
    have hb0 : (⟨0, 0, 0, 0xFF⟩ : SubsetAcc).bitsMerged <
        CRSF_SUBSET_RC_CHANNELS_PACKED_RESOLUTION := by
      simp [CRSF_SUBSET_RC_CHANNELS_PACKED_RESOLUTION]
    have hfirst : (subsetFill payload ⟨0, 0, 0, 0xFF⟩).startChannel =
        u8 (payload 0) &&&
          CRSF_SUBSET_RC_CHANNELS_PACKED_STARTING_CHANNEL_MASK :=
      subsetFill_first payload ⟨0, 0, 0, 0xFF⟩ rfl hb0
    have hne255 : u8 (payload 0) &&&
        CRSF_SUBSET_RC_CHANNELS_PACKED_STARTING_CHANNEL_MASK ≠ 0xFF := by
      have hle : u8 (payload 0) &&&
          CRSF_SUBSET_RC_CHANNELS_PACKED_STARTING_CHANNEL_MASK ≤
            CRSF_SUBSET_RC_CHANNELS_PACKED_STARTING_CHANNEL_MASK :=
        Nat.and_le_right
      simp only [CRSF_SUBSET_RC_CHANNELS_PACKED_STARTING_CHANNEL_MASK]
        at hle ⊢
      omega
    show (subsetLoop payload (m + 1) 0 ⟨0, 0, 0, 0xFF⟩).map Prod.fst = _
    simp only [subsetLoop, List.map_cons, hfirst]
    rw [subsetLoop_map_fst payload m 1 _ (by exact hne255)]
    dsimp only
    rw [List.range_succ_eq_map]
    simp only [List.map_cons, List.map_map]
    have htail : ((fun n => (u8 (payload 0) &&&
        CRSF_SUBSET_RC_CHANNELS_PACKED_STARTING_CHANNEL_MASK) + n) ∘
          Nat.succ) =
        (fun i => (u8 (payload 0) &&&
          CRSF_SUBSET_RC_CHANNELS_PACKED_STARTING_CHANNEL_MASK) +
            (1 + i)) := by
      funext i
      simp only [Function.comp_apply]
      omega
    rw [htail]

/-- C5: the subset unpacker extracts
`numOfChannels = (payloadBytes*8 - 5) / 11` values and writes value `n`
to `channelData[startChannel + n]` only (the write-index list is exactly
`startChannel, startChannel+1, …`); in particular, for the latched subset
frame `c5Frame` with starting channel 4 and packed values `{100, 2000}`,
polling `crsfFrameStatus` writes exactly `channelData[4] = 100` and
`channelData[5] = 2000` and every other channel index retains its
previous value. -/
theorem subset_unpack_effect :
    (∀ (payload : Nat → Nat) (k : Nat),
      (subsetWrites payload k).map Prod.fst =
        (List.range k).map (fun n =>
          (u8 (payload 0) &&&
            CRSF_SUBSET_RC_CHANNELS_PACKED_STARTING_CHANNEL_MASK) + n)) ∧
    (∀ L, CRSF_FRAME_LENGTH_TYPE_CRC ≤ L → L ≤ CRSF_FRAME_SIZE_MAX →
      subsetNumOfChannels L =
        ((L - CRSF_FRAME_LENGTH_TYPE_CRC) * 8 -
          CRSF_SUBSET_RC_CHANNELS_PACKED_STARTING_CHANNEL_RESOLUTION) /
          CRSF_SUBSET_RC_CHANNELS_PACKED_RESOLUTION) ∧
    (∀ cd : Nat → Nat,
      (crsfFrameStatus (c5LatchedState cd)).2.status =
        RxFrameState.complete ∧
      (crsfFrameStatus (c5LatchedState cd)).2.writes =
        [(4, 100), (5, 2000)] ∧
      (crsfFrameStatus (c5LatchedState cd)).1.crsfChannelData 4 = 100 ∧
      (crsfFrameStatus (c5LatchedState cd)).1.crsfChannelData 5 = 2000 ∧
      ∀ i, i ≠ 4 → i ≠ 5 →
        (crsfFrameStatus (c5LatchedState cd)).1.crsfChannelData i = cd i) := by
  refine ⟨subsetWrites_map_fst, ?_, ?_⟩
  · intro L h1 h2
    simp only [CRSF_FRAME_LENGTH_TYPE_CRC, CRSF_FRAME_SIZE_MAX] at h1 h2
    interval_cases L <;> decide
  · intro cd
    have hd : (c5LatchedState cd).crsfFrameDone = true := rfl
    have hw : crsfFrameStatusWrites (fun j => c5Frame.getD j 0) =
        [(4, 100), (5, 2000)] := by decide
    have hres : crsfFrameStatus (c5LatchedState cd) =
        ({ c5LatchedState cd with
            crsfFrameDone := false
            crsfChannelData :=
              applyWrites cd [(4, 100), (5, 2000)] },
          ⟨RxFrameState.complete, [(4, 100), (5, 2000)]⟩) := by
      rw [crsfFrameStatus, if_pos hd]
      rw [show crsfFrameStatusWrites (c5LatchedState cd).channelDataFrameBytes
          = [(4, 100), (5, 2000)] from hw]
      rfl
    rw [hres]
    refine ⟨rfl, rfl, ?_, ?_, ?_⟩
    · show applyWrites cd [(4, 100), (5, 2000)] 4 = 100
      simp [applyWrites, Function.update_apply]
    · show applyWrites cd [(4, 100), (5, 2000)] 5 = 2000
      simp [applyWrites, Function.update_apply]
    · intro i h4 h5
      show applyWrites cd [(4, 100), (5, 2000)] i = cd i
      simp [applyWrites, Function.update_apply, h4, h5]

/-- `getD` of a prefix agrees with `getD` of the whole list below the cut. -/
theorem getD_take :
    ∀ (l : List (Nat × Nat)) (n j : Nat), j < n →
      (l.take n).getD j (0, 0) = l.getD j (0, 0) := by
  intro l
  induction l with
  | nil => intro n j _; simp
  | cons a l ih =>
    intro n j h
    cases n with
    | zero => omega
    | succ n =>
      cases j with
      | zero => rfl
      | succ j => exact ih n j (by omega)

/-- `getD` of a suffix shifts the index. -/
theorem getD_drop :
    ∀ (l : List (Nat × Nat)) (n j : Nat),
      (l.drop n).getD j (0, 0) = l.getD (n + j) (0, 0) := by
  intro l
  induction l with
  | nil => intro n j; simp
  | cons a l ih =>
    intro n j
    cases n with
    | zero => simp
    | succ n =>
      show (l.drop n).getD j (0, 0) = (a :: l).getD (n + 1 + j) (0, 0)
      rw [show n + 1 + j = (n + j) + 1 from by omega]
      exact ih n j

/-- Length of a prefix cut below the list length. -/
theorem length_take_le :
    ∀ (l : List (Nat × Nat)) (n : Nat), n ≤ l.length →
      (l.take n).length = n := by
  intro l
  induction l with
  | nil => intro n h; simp at h; simp [h]
  | cons a l ih =>
    intro n h
    cases n with
    | zero => rfl
    | succ n =>
      show (l.take n).length + 1 = n + 1
      rw [ih n (by simpa using h)]

/-- Membership in a prefix implies membership in the list. -/
theorem mem_take_mem :
    ∀ (l : List (Nat × Nat)) (n : Nat) (q : Nat × Nat),
      q ∈ l.take n → q ∈ l := by
  intro l
  induction l with
  | nil => intro n q h; simp at h
  | cons a l ih =>
    intro n q h
    cases n with
    | zero => simp at h
    | succ n =>
      rcases List.mem_cons.mp h with h | h
      · rw [h]
        exact List.mem_cons_self a l
      · exact List.mem_cons_of_mem a (ih n q h)

/-- Running a concatenated stream runs the pieces in sequence,
concatenating the logs. -/
theorem crsfRun_append (b : Bool) (xs ys : List (Nat × Nat))
    (s : CrsfState) :
    crsfRun b (xs ++ ys) s =
      ((crsfRun b ys (crsfRun b xs s).1).1,
        (crsfRun b xs s).2 ++ (crsfRun b ys (crsfRun b xs s).1).2) := by
  induction xs generalizing s with
  | nil => simp [crsfRun]
  | cons q rest ih =>
    have hstep : crsfRun b ((q :: rest) ++ ys) s =
        ((crsfRun b (rest ++ ys) (crsfDataReceive b q.1 q.2 s).1).1,
          (crsfDataReceive b q.1 q.2 s).2 ::
            (crsfRun b (rest ++ ys) (crsfDataReceive b q.1 q.2 s).1).2) := rfl
    rw [hstep, ih]
    rfl

/-- A buffer index below the store window is untouched by `writeSeq`. -/
theorem writeSeq_apply_lt :
    ∀ (xs : List (Nat × Nat)) (p : Nat) (f : FrameBytes) (j : Nat),
      j < p → writeSeq f p xs j = f j := by
  intro xs
  induction xs with
  | nil => intro p f j _; rfl
  | cons q rest ih =>
    intro p f j hj
    show writeSeq (Function.update f p (u8 q.1)) (p + 1) rest j = f j
    rw [ih (p + 1) _ j (by omega)]
    exact Function.update_noteq (by omega) _ _

/-- A buffer index at or past the store window is untouched by
`writeSeq`. -/
theorem writeSeq_apply_ge :
    ∀ (xs : List (Nat × Nat)) (p : Nat) (f : FrameBytes) (j : Nat),
      p + xs.length ≤ j → writeSeq f p xs j = f j := by
  intro xs
  induction xs with
  | nil => intro p f j _; rfl
  | cons q rest ih =>
    intro p f j hj
    show writeSeq (Function.update f p (u8 q.1)) (p + 1) rest j = f j
    rw [ih (p + 1) _ j (by simp at hj ⊢; omega)]
    exact Function.update_noteq (by simp at hj; omega) _ _

/-- A buffer index inside the store window holds the corresponding stream
byte after `writeSeq`. -/
theorem writeSeq_apply_in :
    ∀ (xs : List (Nat × Nat)) (p : Nat) (f : FrameBytes) (j : Nat),
      p ≤ j → j < p + xs.length →
      writeSeq f p xs j = u8 (xs.getD (j - p) (0, 0)).1 := by
  intro xs
  induction xs with
  | nil => intro p f j h1 h2; simp at h2; omega
  | cons q rest ih =>
    intro p f j h1 h2
    show writeSeq (Function.update f p (u8 q.1)) (p + 1) rest j = _
    by_cases hj : j = p
    · rw [hj, writeSeq_apply_lt rest (p + 1) _ p (by omega),
        Function.update_same]
      simp
    · have h1' : p + 1 ≤ j := by omega
      rw [ih (p + 1) _ j h1' (by simp at h2 ⊢; omega)]
      rw [show j - p = (j - (p + 1)) + 1 from by omega]
      rfl

/-- Invariant of the accumulation phase: from any mid-frame position
`p ≥ 2` with the length byte already stored, feeding bytes that neither
trigger the inter-frame timeout nor reach the full frame length simply
stores them at consecutive indices, advances the position, keeps the
frame start, takes one error-counter step per byte, and never reports a
completion or a dispatch. -/
theorem crsfRun_accum (b : Bool) (L t0 : Nat)
    (hwrap : t0 + CRSF_TIME_NEEDED_PER_FRAME_US < 4294967296) :
    ∀ (xs : List (Nat × Nat)) (p : Nat) (s : CrsfState),
      2 ≤ p → p + xs.length ≤ L + 1 →
      s.crsfFramePosition = p → s.frameBytes 1 = L →
      s.crsfFrameStartAtUs = t0 →
      (∀ q ∈ xs, q.2 ≤ t0 + CRSF_TIME_NEEDED_PER_FRAME_US) →
      (crsfRun b xs s).1 =
        ⟨p + xs.length, t0, writeSeq s.frameBytes p xs, s.crsfFrameDone,
          s.channelDataFrameBytes,
          bumpThresh^[xs.length] s.crsfFrameErrorCnt, s.crsfChannelData⟩ ∧
      (crsfRun b xs s).2.map StepLog.completed =
        List.replicate xs.length false ∧
      (crsfRun b xs s).2.map StepLog.dispatched =
        List.replicate xs.length false := by
  intro xs
  induction xs with
  | nil =>
    intro p s h2 hlen hp hb1 hst _
    refine ⟨?_, rfl, rfl⟩
    show s = _
    cases s
    simp_all [writeSeq]
  | cons q rest ih =>
    intro p s h2 hlen hp hb1 hst htime
    have ht : q.2 ≤ t0 + CRSF_TIME_NEEDED_PER_FRAME_US :=
      htime q (List.mem_cons_self q rest)
    have hq2 : u32 q.2 = q.2 := Nat.mod_eq_of_lt (lt_of_le_of_lt ht hwrap)
    have hnr : ¬ u32 (s.crsfFrameStartAtUs +
        CRSF_TIME_NEEDED_PER_FRAME_US) < u32 q.2 := by
      rw [hst, hq2]
      unfold u32
      rw [Nat.mod_eq_of_lt hwrap]
      omega
    have hres : resyncPos s (u32 q.2) = p := by
      rw [resyncPos_of_in_window s _ hnr, hp]
    have hrest : p + (rest.length + 1) ≤ L + 1 := by simpa using hlen
    have hstep : crsfDataReceive b q.1 q.2 s =
        (⟨p + 1, s.crsfFrameStartAtUs,
            Function.update s.frameBytes p (u8 q.1), s.crsfFrameDone,
            s.channelDataFrameBytes, bumpThresh s.crsfFrameErrorCnt,
            s.crsfChannelData⟩,
          ⟨some p, false, false, false, false, false,
            (applyThreshold (bump s.crsfFrameErrorCnt)).2⟩) := by
      rw [crsfDataReceive_eq_step, hres]
      by_cases hp3 : p < 3
      · exact crsfStep_mid b q.1 (u32 q.2) s p 5 (by omega) (if_pos hp3)
          (by omega) (by omega)
      · exact crsfStep_mid b q.1 (u32 q.2) s p (L + 2) (by omega)
          (by rw [if_neg hp3, hb1]; rfl) (by omega) (by omega)
    have hrun : crsfRun b (q :: rest) s =
        ((crsfRun b rest (crsfDataReceive b q.1 q.2 s).1).1,
          (crsfDataReceive b q.1 q.2 s).2 ::
            (crsfRun b rest (crsfDataReceive b q.1 q.2 s).1).2) := rfl
    rw [hrun, hstep]
    obtain ⟨ih1, ih2, ih3⟩ := ih (p + 1)
      ⟨p + 1, s.crsfFrameStartAtUs,
        Function.update s.frameBytes p (u8 q.1), s.crsfFrameDone,
        s.channelDataFrameBytes, bumpThresh s.crsfFrameErrorCnt,
        s.crsfChannelData⟩
      (by omega) (by omega) rfl
      (by
        show Function.update s.frameBytes p (u8 q.1) 1 = L
        rw [Function.update_noteq (by omega)]
        exact hb1)
      hst
      (fun w hw => htime w (List.mem_cons_of_mem q hw))
    refine ⟨?_, ?_, ?_⟩
    · rw [ih1]
      rw [show p + 1 + rest.length = p + (rest.length + 1) from by omega]
      rw [show bumpThresh^[rest.length] (bumpThresh s.crsfFrameErrorCnt) =
        bumpThresh^[rest.length + 1] s.crsfFrameErrorCnt from
        (Function.iterate_succ_apply bumpThresh rest.length _).symm]
      rfl
    · show StepLog.completed _ :: _ = _
      rw [ih2]
      rfl
    · show StepLog.dispatched _ :: _ = _
      rw [ih3]
      rfl

/-- The startup phase of assembling one frame: starting at position 0,
feeding the first `k ≤ L + 1` bytes of a stream whose second byte
declares frame length `L` (all bytes within the inter-frame window of the
first byte's timestamp) stores them at buffer indices `0 .. k-1`, stamps
the frame start with the first byte's timestamp, takes one error-counter
step per byte, and reports no completion and no dispatch. -/
theorem crsfRun_startup (b : Bool) (inputs : List (Nat × Nat))
    (s : CrsfState) (L : Nat)
    (hlen : inputs.length = L + 2) (hL : 2 ≤ L)
    (hLbyte : u8 (streamByte inputs 1) = L)
    (hwrap : (inputs.getD 0 (0, 0)).2 + CRSF_TIME_NEEDED_PER_FRAME_US <
      4294967296)
    (htime : ∀ q ∈ inputs, q.2 ≤ (inputs.getD 0 (0, 0)).2 +
      CRSF_TIME_NEEDED_PER_FRAME_US)
    (hpos : s.crsfFramePosition = 0) :
    ∀ k, 1 ≤ k → k ≤ L + 1 →
      (crsfRun b (inputs.take k) s).1 =
        ⟨k, (inputs.getD 0 (0, 0)).2,
          writeSeq s.frameBytes 0 (inputs.take k), s.crsfFrameDone,
          s.channelDataFrameBytes, bumpThresh^[k] s.crsfFrameErrorCnt,
          s.crsfChannelData⟩ ∧
      (crsfRun b (inputs.take k) s).2.map StepLog.completed =
        List.replicate k false ∧
      (crsfRun b (inputs.take k) s).2.map StepLog.dispatched =
        List.replicate k false := by
  rcases inputs with _ | ⟨q0, inputs1⟩
  · simp at hlen
  rcases inputs1 with _ | ⟨q1, rest⟩
  · simp at hlen
  have hrl : rest.length = L := by simp at hlen; omega
  have hwrap' : q0.2 + CRSF_TIME_NEEDED_PER_FRAME_US < 4294967296 := hwrap
  have htime' : ∀ q ∈ q0 :: q1 :: rest,
      q.2 ≤ q0.2 + CRSF_TIME_NEEDED_PER_FRAME_US := htime
  have hu0 : u32 q0.2 = q0.2 :=
    Nat.mod_eq_of_lt (lt_of_le_of_lt (Nat.le_add_right _ _) hwrap')
  have hres0 : resyncPos s (u32 q0.2) = 0 := by
    unfold resyncPos
    rw [hpos]
    exact ite_self 0
  have hstep0 : crsfDataReceive b q0.1 q0.2 s =
      (⟨1, q0.2, Function.update s.frameBytes 0 (u8 q0.1), s.crsfFrameDone,
          s.channelDataFrameBytes, bumpThresh s.crsfFrameErrorCnt,
          s.crsfChannelData⟩,
        ⟨some 0, false, false, false, false, false,
          (applyThreshold (bump s.crsfFrameErrorCnt)).2⟩) := by
    rw [crsfDataReceive_eq_step, hres0, crsfStep_start, hu0]
  have hS1 : (crsfDataReceive b q0.1 q0.2 s).1 =
      ⟨1, q0.2, Function.update s.frameBytes 0 (u8 q0.1), s.crsfFrameDone,
        s.channelDataFrameBytes, bumpThresh s.crsfFrameErrorCnt,
        s.crsfChannelData⟩ := by rw [hstep0]
  have hL0 : (crsfDataReceive b q0.1 q0.2 s).2 =
      ⟨some 0, false, false, false, false, false,
        (applyThreshold (bump s.crsfFrameErrorCnt)).2⟩ := by rw [hstep0]
  intro k hk1 hk2
  rcases k with _ | k1
  · omega
  rcases k1 with _ | k2
  · -- k = 1
    have hrun1 : crsfRun b ((q0 :: q1 :: rest).take 1) s =
        ((crsfDataReceive b q0.1 q0.2 s).1,
          [(crsfDataReceive b q0.1 q0.2 s).2]) := rfl
    rw [hrun1, hstep0]
    exact ⟨by rfl, by rfl, by rfl⟩
  · -- k = k2 + 2
    have hres1 : resyncPos
        (⟨1, q0.2, Function.update s.frameBytes 0 (u8 q0.1),
          s.crsfFrameDone, s.channelDataFrameBytes,
          bumpThresh s.crsfFrameErrorCnt, s.crsfChannelData⟩ : CrsfState)
        (u32 q1.2) = 1 := by
      refine resyncPos_of_in_window _ _ ?_
      have h1 : u32 q1.2 ≤ q1.2 := Nat.mod_le _ _
      have h2 : q1.2 ≤ q0.2 + CRSF_TIME_NEEDED_PER_FRAME_US :=
        htime' q1 (by simp)
      show ¬ u32 (q0.2 + CRSF_TIME_NEEDED_PER_FRAME_US) < u32 q1.2
      unfold u32
      omega
    have hstep1 : crsfDataReceive b q1.1 q1.2
        (⟨1, q0.2, Function.update s.frameBytes 0 (u8 q0.1),
          s.crsfFrameDone, s.channelDataFrameBytes,
          bumpThresh s.crsfFrameErrorCnt, s.crsfChannelData⟩ : CrsfState) =
        (⟨2, q0.2,
            Function.update (Function.update s.frameBytes 0 (u8 q0.1)) 1
              (u8 q1.1), s.crsfFrameDone, s.channelDataFrameBytes,
            bumpThresh (bumpThresh s.crsfFrameErrorCnt),
            s.crsfChannelData⟩,
          ⟨some 1, false, false, false, false, false,
            (applyThreshold (bump (bumpThresh s.crsfFrameErrorCnt))).2⟩) := by
      rw [crsfDataReceive_eq_step, hres1]
      exact crsfStep_mid b q1.1 (u32 q1.2) _ 1 5 (by omega)
        (if_pos (by omega)) (by omega) (by omega)
    have hS2 : (crsfDataReceive b q1.1 q1.2
        (crsfDataReceive b q0.1 q0.2 s).1).1 =
        ⟨2, q0.2,
          Function.update (Function.update s.frameBytes 0 (u8 q0.1)) 1
            (u8 q1.1), s.crsfFrameDone, s.channelDataFrameBytes,
          bumpThresh (bumpThresh s.crsfFrameErrorCnt),
          s.crsfChannelData⟩ := by rw [hS1, hstep1]
    have hL1 : (crsfDataReceive b q1.1 q1.2
        (crsfDataReceive b q0.1 q0.2 s).1).2 =
        ⟨some 1, false, false, false, false, false,
          (applyThreshold (bump (bumpThresh s.crsfFrameErrorCnt))).2⟩ := by
      rw [hS1, hstep1]
    have hxslen : (rest.take k2).length = k2 :=
      length_take_le rest k2 (by omega)
    obtain ⟨ha1, ha2, ha3⟩ := crsfRun_accum b L q0.2 hwrap' (rest.take k2) 2
      (⟨2, q0.2,
        Function.update (Function.update s.frameBytes 0 (u8 q0.1)) 1
          (u8 q1.1), s.crsfFrameDone, s.channelDataFrameBytes,
        bumpThresh (bumpThresh s.crsfFrameErrorCnt), s.crsfChannelData⟩ :
          CrsfState)
      (by omega) (by rw [hxslen]; omega) rfl
      (by
        show Function.update (Function.update s.frameBytes 0 (u8 q0.1)) 1
          (u8 q1.1) 1 = L
        rw [Function.update_same]
        exact hLbyte)
      rfl
      (fun w hw => htime' w
        (List.mem_cons_of_mem q0 (List.mem_cons_of_mem q1
          (mem_take_mem rest k2 w hw))))
    rw [hxslen] at ha1
    have htake : (q0 :: q1 :: rest).take (k2 + 2) =
        q0 :: q1 :: rest.take k2 := rfl
    have hrunS : (crsfRun b (q0 :: q1 :: rest.take k2) s).1 =
        (crsfRun b (rest.take k2) (crsfDataReceive b q1.1 q1.2
          (crsfDataReceive b q0.1 q0.2 s).1).1).1 := rfl
    have hrunL : (crsfRun b (q0 :: q1 :: rest.take k2) s).2 =
        (crsfDataReceive b q0.1 q0.2 s).2 ::
          (crsfDataReceive b q1.1 q1.2
            (crsfDataReceive b q0.1 q0.2 s).1).2 ::
          (crsfRun b (rest.take k2) (crsfDataReceive b q1.1 q1.2
            (crsfDataReceive b q0.1 q0.2 s).1).1).2 := rfl
    refine ⟨?_, ?_, ?_⟩
    · rw [htake, hrunS, hS2, ha1]
      rw [show bumpThresh^[k2 + 2] s.crsfFrameErrorCnt =
        bumpThresh^[k2] (bumpThresh (bumpThresh s.crsfFrameErrorCnt)) from by
        rw [show k2 + 2 = k2 + 1 + 1 from rfl, Function.iterate_succ_apply,
          Function.iterate_succ_apply]]
      rw [show (2 : Nat) + k2 = k2 + 2 from by omega]
      rfl
    · rw [htake, hrunL, hL0, hL1, hS2]
      simp only [List.map_cons, ha2]
      rw [hxslen]
      rfl
    · rw [htake, hrunL, hL0, hL1, hS2]
      simp only [List.map_cons, ha3]
      rw [hxslen]
      rfl

/-- C5 witness: the concrete latched `c5Frame` over the constant-7 channel
array — channels 4 and 5 receive 100 and 2000, channel 9 keeps its old
value, and the subset channel-count formula instantiated at the frame's
declared length 6 gives 2. -/
theorem subset_unpack_effect_witness :
    (crsfFrameStatus (c5LatchedState (fun _ => 7))).1.crsfChannelData 4 =
      100 ∧
    (crsfFrameStatus (c5LatchedState (fun _ => 7))).1.crsfChannelData 5 =
      2000 ∧
    (crsfFrameStatus (c5LatchedState (fun _ => 7))).1.crsfChannelData 9 =
      7 ∧
    subsetNumOfChannels 6 = 2 := by
  have h := subset_unpack_effect.2.2 (fun _ => 7)
  have hn := subset_unpack_effect.2.1 6 (by decide) (by decide)
  exact ⟨h.2.2.1, h.2.2.2.1, h.2.2.2.2 9 (by decide) (by decide),
    hn.trans (by decide)⟩


/-- In a list of `Option Nat`, the element just after a prefix sits at the
prefix's length. -/
theorem getD_append_self :
    ∀ (A : List (Option Nat)) (x : Option Nat),
      (A ++ [x]).getD A.length none = x := by
  intro A x
  induction A with
  | nil => rfl
  | cons a A ih => exact ih

/-- C2: for every well-formed frame (declared length `L` with
`2 ≤ L ≤ 62`, total size `L + 2`) delivered byte by byte within the
inter-frame timeout to a synchronized assembler, the assembler declares
the frame complete exactly once — at the arrival of its final byte (the
completion log is `false` at every byte except the last, and every proper
prefix of the stream produces no completion at all) — and it dispatches
the frame (runs the frame-type switch) if and only if the CRC-8/DVB-S2
accumulated by `crsfFrameCRC` over the assembled frame — the type byte
followed by all payload bytes except the final trailing CRC byte —
equals that final byte. -/
theorem crsf_frame_assembly (b : Bool) (inputs : List (Nat × Nat))
    (s : CrsfState) (L : Nat)
    (hlen : inputs.length = L + 2) (hL : 2 ≤ L)
    (hLmax : L + CRSF_FRAME_LENGTH_TYPE_CRC ≤ CRSF_FRAME_SIZE_MAX)
    (hLbyte : u8 (streamByte inputs 1) = L)
    (hwrap : (inputs.getD 0 (0, 0)).2 + CRSF_TIME_NEEDED_PER_FRAME_US <
      4294967296)
    (htime : ∀ q ∈ inputs, q.2 ≤ (inputs.getD 0 (0, 0)).2 +
      CRSF_TIME_NEEDED_PER_FRAME_US)
    (hpos : s.crsfFramePosition = 0) :
    (∀ k, k ≤ L + 1 →
      (crsfRun b (inputs.take k) s).2.map StepLog.completed =
        List.replicate k false) ∧
    (crsfRun b inputs s).2.map StepLog.completed =
      List.replicate (L + 1) false ++ [true] ∧
    (crsfRun b inputs s).2.map StepLog.dispatched =
      List.replicate (L + 1) false ++
        [decide (crsfFrameCRC (frameOfStream inputs s.frameBytes) =
          u8 (streamByte inputs (L + 1)))] := by
  have hstart := crsfRun_startup b inputs s L hlen hL hLbyte hwrap htime hpos
  have hpre : ∀ k, k ≤ L + 1 →
      (crsfRun b (inputs.take k) s).2.map StepLog.completed =
        List.replicate k false := by
    intro k hk
    rcases Nat.eq_zero_or_pos k with h0 | h1
    · subst h0; rfl
    · exact (hstart k h1 hk).2.1
  obtain ⟨hS, hC, hD⟩ := hstart (L + 1) (by omega) (le_refl _)
  have hdl : (inputs.drop (L + 1)).length = 1 := by
    rw [List.length_drop, hlen]; omega
  obtain ⟨qlast, hdrop⟩ : ∃ q, inputs.drop (L + 1) = [q] := by
    rcases hq : inputs.drop (L + 1) with _ | ⟨q, rest2⟩
    · rw [hq] at hdl; simp at hdl
    · rw [hq] at hdl
      rcases rest2 with _ | ⟨w, ws⟩
      · exact ⟨q, rfl⟩
      · simp at hdl
  have hql : qlast = inputs.getD (L + 1) (0, 0) := by
    have hgd := getD_drop inputs (L + 1) 0
    rw [hdrop] at hgd
    simpa using hgd
  have hsplit : inputs = inputs.take (L + 1) ++ [qlast] := by
    conv_lhs => rw [← List.take_append_drop (L + 1) inputs]
    rw [hdrop]
  have htl : (inputs.take (L + 1)).length = L + 1 :=
    length_take_le inputs (L + 1) (by omega)
  have hmemlast : qlast ∈ inputs := by
    rw [hsplit]
    simp
  have hres : resyncPos
      (⟨L + 1, (inputs.getD 0 (0, 0)).2,
        writeSeq s.frameBytes 0 (inputs.take (L + 1)), s.crsfFrameDone,
        s.channelDataFrameBytes, bumpThresh^[L + 1] s.crsfFrameErrorCnt,
        s.crsfChannelData⟩ : CrsfState) (u32 qlast.2) = L + 1 := by
    refine resyncPos_of_in_window _ _ ?_
    have h1 : u32 qlast.2 ≤ qlast.2 := Nat.mod_le _ _
    have h2 : qlast.2 ≤ (inputs.getD 0 (0, 0)).2 +
        CRSF_TIME_NEEDED_PER_FRAME_US := htime qlast hmemlast
    show ¬ u32 ((inputs.getD 0 (0, 0)).2 +
      CRSF_TIME_NEEDED_PER_FRAME_US) < u32 qlast.2
    unfold u32
    omega
  have hfb1 : writeSeq s.frameBytes 0 (inputs.take (L + 1)) 1 = L := by
    rw [writeSeq_apply_in (inputs.take (L + 1)) 0 s.frameBytes 1 (by omega)
      (by rw [htl]; omega)]
    rw [show (1 : Nat) - 0 = 1 from rfl, getD_take inputs (L + 1) 1 (by omega)]
    exact hLbyte
  have hF : (if L + 1 < 3 then 5
      else writeSeq s.frameBytes 0 (inputs.take (L + 1)) 1 +
        CRSF_FRAME_LENGTH_ADDRESS + CRSF_FRAME_LENGTH_FRAMELENGTH) =
      (L + 1) + 1 := by
    rw [if_neg (by omega), hfb1]
    rfl
  have hbytes : Function.update
      (writeSeq s.frameBytes 0 (inputs.take (L + 1))) (L + 1) (u8 qlast.1) =
      frameOfStream inputs s.frameBytes := by
    funext j
    by_cases hj1 : j < L + 1
    · rw [Function.update_noteq (by omega)]
      rw [writeSeq_apply_in _ 0 _ j (by omega) (by rw [htl]; omega)]
      rw [show j - 0 = j from rfl, getD_take inputs (L + 1) j hj1]
      simp only [frameOfStream, streamByte]
      rw [if_pos (by omega)]
    · by_cases hj2 : j = L + 1
      · rw [hj2, Function.update_same]
        simp only [frameOfStream, streamByte]
        rw [if_pos (by omega), ← hql]
      · rw [Function.update_noteq (by omega)]
        rw [writeSeq_apply_ge _ 0 _ j (by rw [htl]; omega)]
        simp only [frameOfStream]
        rw [if_neg (by omega)]
  have hlastb : frameOfStream inputs s.frameBytes (L + 1) =
      u8 (streamByte inputs (L + 1)) := by
    simp only [frameOfStream]
    rw [if_pos (by omega)]
  have hstepF : crsfDataReceive b qlast.1 qlast.2
      (⟨L + 1, (inputs.getD 0 (0, 0)).2,
        writeSeq s.frameBytes 0 (inputs.take (L + 1)), s.crsfFrameDone,
        s.channelDataFrameBytes, bumpThresh^[L + 1] s.crsfFrameErrorCnt,
        s.crsfChannelData⟩ : CrsfState) =
      if crsfFrameCRC (frameOfStream inputs s.frameBytes) =
          u8 (streamByte inputs (L + 1)) then
        (⟨0, (inputs.getD 0 (0, 0)).2, frameOfStream inputs s.frameBytes,
            (crsfDispatch b (frameOfStream inputs s.frameBytes) (L + 1 + 1)
              s.crsfFrameDone s.channelDataFrameBytes).frameDone,
            (crsfDispatch b (frameOfStream inputs s.frameBytes) (L + 1 + 1)
              s.crsfFrameDone
              s.channelDataFrameBytes).channelDataFrameBytes, 0,
            s.crsfChannelData⟩,
          ⟨some (L + 1), true, true,
            (crsfDispatch b (frameOfStream inputs s.frameBytes) (L + 1 + 1)
              s.crsfFrameDone s.channelDataFrameBytes).latchedRcFrame,
            (crsfDispatch b (frameOfStream inputs s.frameBytes) (L + 1 + 1)
              s.crsfFrameDone s.channelDataFrameBytes).handledLinkStats,
            (crsfDispatch b (frameOfStream inputs s.frameBytes) (L + 1 + 1)
              s.crsfFrameDone s.channelDataFrameBytes).processedCommand,
            false⟩)
      else
        (⟨0, (inputs.getD 0 (0, 0)).2, frameOfStream inputs s.frameBytes,
            s.crsfFrameDone, s.channelDataFrameBytes,
            bumpThresh (bumpThresh^[L + 1] s.crsfFrameErrorCnt),
            s.crsfChannelData⟩,
          ⟨some (L + 1), true, false, false, false, false,
            (applyThreshold (bump
              (bumpThresh^[L + 1] s.crsfFrameErrorCnt))).2⟩) := by
    rw [crsfDataReceive_eq_step, hres]
    rw [crsfStep_last b qlast.1 (u32 qlast.2) _ (L + 1) (by omega) hF]
    rw [show Function.update
      (writeSeq s.frameBytes 0 (inputs.take (L + 1))) (L + 1)
        (u8 qlast.1) = frameOfStream inputs s.frameBytes from hbytes]
    rw [hlastb]
  have hra := crsfRun_append b (inputs.take (L + 1)) [qlast] s
  have hlogs : (crsfRun b inputs s).2 =
      (crsfRun b (inputs.take (L + 1)) s).2 ++
        [(crsfDataReceive b qlast.1 qlast.2
          (crsfRun b (inputs.take (L + 1)) s).1).2] := by
    conv_lhs => rw [hsplit]
    rw [hra]
    rfl
  refine ⟨hpre, ?_, ?_⟩
  · rw [hlogs, hS, hstepF, List.map_append, hC]
    by_cases hcrc : crsfFrameCRC (frameOfStream inputs s.frameBytes) =
        u8 (streamByte inputs (L + 1))
    · rw [if_pos hcrc]
      rfl
    · rw [if_neg hcrc]
      rfl
  · rw [hlogs, hS, hstepF, List.map_append, hD]
    by_cases hcrc : crsfFrameCRC (frameOfStream inputs s.frameBytes) =
        u8 (streamByte inputs (L + 1))
    · rw [if_pos hcrc]
      simp [hcrc]
    · rw [if_neg hcrc]
      simp [hcrc]

/-- Closed-form check of C2 on the concrete four-byte stream `c2Stream`
(minimal well-formed frame: declared length 2, type 0x16, correct CRC
byte): completion and dispatch happen exactly at the final byte. -/
theorem crsf_frame_assembly_witness :
    (crsfRun false c2Stream initState).2.map StepLog.completed =
      [false, false, false, true] ∧
    (crsfRun false c2Stream initState).2.map StepLog.dispatched =
      [false, false, false, true] := by
  have h := crsf_frame_assembly false c2Stream initState 2
    (by decide) (by decide) (by decide) (by decide)
    (by decide) (by decide) (by decide)
  refine ⟨?_, ?_⟩
  · rw [h.2.1]
    rfl
  · rw [h.2.2]
    decide

/-- `List.getD` at an index equal to the prefix length picks out the
appended singleton element. -/
theorem getD_append_len (A : List (Option Nat)) (x : Option Nat) (n : Nat)
    (h : A.length = n) : (A ++ [x]).getD n none = x := by
  subst h
  exact getD_append_self A x

/-- Whatever the CRC comparison yields, the final byte of a frame is
stored into the frame buffer at the current byte position. -/
theorem crsfStep_last_wrote (b : Bool) (c t : Nat) (s : CrsfState)
    (p : Nat) (hp0 : p ≠ 0)
    (hF : (if p < 3 then 5
      else s.frameBytes 1 + CRSF_FRAME_LENGTH_ADDRESS +
        CRSF_FRAME_LENGTH_FRAMELENGTH) = p + 1) :
    (crsfStep b c t p s).2.wroteIndex = some p := by
  rw [crsfStep_last b c t s p hp0 hF]
  split <;> rfl

/-- C1: refuted by the code. `crsfDataReceive` stores each accepted byte
at the current byte position with no bound check against the 64-byte
frame buffer. On `c1Stream` the length byte 63 declares a full frame
length of 65 bytes, exceeding the buffer capacity
`CRSF_FRAME_SIZE_MAX = 64`, yet instead of rejecting the frame the
assembler stores the 65th byte at frame-buffer index 64, one past the
last valid index 63: an out-of-bounds write. -/
theorem frameBuffer_overflow_at_64 :
    u8 (streamByte c1Stream 1) + CRSF_FRAME_LENGTH_ADDRESS +
      CRSF_FRAME_LENGTH_FRAMELENGTH = CRSF_FRAME_SIZE_MAX + 1 ∧
    ((crsfRun false c1Stream initState).2.map
      StepLog.wroteIndex).getD CRSF_FRAME_SIZE_MAX none =
      some CRSF_FRAME_SIZE_MAX := by
  refine ⟨by decide, ?_⟩
  have hstart := crsfRun_startup false c1Stream initState 63
    (by decide) (by decide) (by decide) (by decide) (by decide) rfl
  obtain ⟨hS, hC, hD⟩ := hstart 64 (by omega) (by omega)
  have hsplit : c1Stream = c1Stream.take 64 ++ [(0, 0)] := by decide
  have htl : (c1Stream.take 64).length = 64 := by decide
  have hres : resyncPos
      (⟨64, (c1Stream.getD 0 (0, 0)).2,
        writeSeq initState.frameBytes 0 (c1Stream.take 64),
        initState.crsfFrameDone, initState.channelDataFrameBytes,
        bumpThresh^[64] initState.crsfFrameErrorCnt,
        initState.crsfChannelData⟩ : CrsfState) (u32 0) = 64 := by
    refine resyncPos_of_in_window _ _ ?_
    decide
  have hfb1 : writeSeq initState.frameBytes 0 (c1Stream.take 64) 1 =
      63 := by
    rw [writeSeq_apply_in (c1Stream.take 64) 0 initState.frameBytes 1
      (by omega) (by rw [htl]; omega)]
    rw [show (1 : Nat) - 0 = 1 from rfl, getD_take c1Stream 64 1 (by omega)]
    decide
  have hF : (if (64 : Nat) < 3 then 5
      else writeSeq initState.frameBytes 0 (c1Stream.take 64) 1 +
        CRSF_FRAME_LENGTH_ADDRESS + CRSF_FRAME_LENGTH_FRAMELENGTH) =
      64 + 1 := by
    rw [if_neg (by omega), hfb1]
    decide
  have hra := crsfRun_append false (c1Stream.take 64) [(0, 0)] initState
  have hlogs : (crsfRun false c1Stream initState).2 =
      (crsfRun false (c1Stream.take 64) initState).2 ++
        [(crsfDataReceive false 0 0
          (crsfRun false (c1Stream.take 64) initState).1).2] := by
    conv_lhs => rw [hsplit]
    rw [hra]
    rfl
  have hAlen : ((crsfRun false (c1Stream.take 64) initState).2.map
      StepLog.wroteIndex).length = CRSF_FRAME_SIZE_MAX := by
    rw [List.length_map]
    have h := congrArg List.length hC
    rw [List.length_map] at h
    simp at h
    exact h
  rw [hlogs, hS, crsfDataReceive_eq_step, hres]
  rw [List.map_append]
  simp only [List.map_cons, List.map_nil]
  rw [getD_append_len _ _ CRSF_FRAME_SIZE_MAX hAlen]
  exact crsfStep_last_wrote false 0 (u32 0) _ 64 (by omega) hF

end CrsfVerify
